import Mathlib

/-! Antibiotic-resistance surveillance dashboard (`app.js`).

A shallow embedding of the filter / aggregation / chart-description pipeline of
`app.js`, followed by theorems about it.

Conventions of the embedding.

* A JavaScript value that is either a string or `undefined` is an
  `Option String`; `truthy` is JavaScript's `ToBoolean` on such a value.
* `String.prototype.toUpperCase` is a built-in of the host, not code of the
  program.  Every definition that upper-cases takes the upper-casing function
  as its first argument `up`; `toUpperCase` below is the built-in restricted to
  ASCII letters and is used where a closed value is computed.
* A finite number is the rational it denotes; `jsAdd`, `jsMul` and `jsDiv`
  round the exact result to the nearest IEEE 754 double.
-/

namespace Dashboard

/-! ## Host values -/

/-- JavaScript `ToBoolean` on a value that is a string or `undefined`/`null`. -/
def truthy : Option String → Bool
  | some s => s != ""
  | none => false

/-- The expression `String(v || dflt)` for `v` a string or `undefined`. -/
def orDefault (v : Option String) (dflt : String) : String :=
  match v with
  | some s => if s != "" then s else dflt
  | none => dflt

/-- Upper-casing of one ASCII letter; every other character is left alone. -/
def upperChar (c : Char) : Char :=
  if 97 ≤ c.toNat ∧ c.toNat ≤ 122 then Char.ofNat (c.toNat - 32) else c

/-- The built-in `toUpperCase` on strings, restricted to ASCII letters. -/
def toUpperCase (s : String) : String :=
  String.mk (s.data.map upperChar)

/-- The built-in `String.prototype.includes`: `t` occurs in `s` as a contiguous
run of characters.  (UTF-16 is self-synchronising, so an occurrence among code
units is an occurrence among characters.) -/
def includes (s t : String) : Bool :=
  decide (t.data <:+: s.data)

/-- A JavaScript number: `NaN`, an infinity, or a finite value kept exact. -/
inductive JSNumber where
  | NaN : JSNumber
  | infinity (negative : Bool) : JSNumber
  | finite (q : ℚ) : JSNumber
  deriving DecidableEq

/-- The built-in `isNaN` on a number. -/
def isNaN : JSNumber → Bool
  | JSNumber.NaN => true
  | _ => false

/-! ### `Number(string)` (ECMAScript `StringToNumber`) -/

/-- Code points of `WhiteSpace` and `LineTerminator`, stripped by
`StringToNumber` on both sides of the literal. -/
def strWhiteSpace : List Nat :=
  [0x09, 0x0A, 0x0B, 0x0C, 0x0D, 0x20, 0xA0, 0x1680, 0x2000, 0x2001, 0x2002,
   0x2003, 0x2004, 0x2005, 0x2006, 0x2007, 0x2008, 0x2009, 0x200A, 0x2028,
   0x2029, 0x202F, 0x205F, 0x3000, 0xFEFF]

def isStrWhiteSpace (c : Char) : Bool :=
  strWhiteSpace.contains c.toNat

/-- Strip white space at both ends. -/
def trimWhiteSpace (cs : List Char) : List Char :=
  ((cs.dropWhile isStrWhiteSpace).reverse.dropWhile isStrWhiteSpace).reverse

/-- Value of a digit in the given radix, `none` for any other character. -/
def digitValue (radix : Nat) (c : Char) : Option Nat :=
  let n := c.toNat
  let v : Option Nat :=
    if 48 ≤ n ∧ n ≤ 57 then some (n - 48)
    else if 97 ≤ n ∧ n ≤ 102 then some (n - 87)
    else if 65 ≤ n ∧ n ≤ 70 then some (n - 55)
    else none
  match v with
  | some d => if d < radix then some d else none
  | none => none

/-- Longest prefix of digits of the radix (as values), and what follows it. -/
def spanDigits (radix : Nat) : List Char → List Nat × List Char
  | [] => ([], [])
  | c :: cs =>
    match digitValue radix c with
    | some d => ((spanDigits radix cs).1.cons d, (spanDigits radix cs).2)
    | none => ([], c :: cs)

/-- Mathematical value of a digit string. -/
def digitsValue (radix : Nat) (ds : List Nat) : Nat :=
  ds.foldl (fun acc d => acc * radix + d) 0

/-- `NonDecimalIntegerLiteral` body: one or more digits and nothing else. -/
def nonDecimalLiteral (radix : Nat) (cs : List Char) : JSNumber :=
  match spanDigits radix cs with
  | (d :: ds, []) => JSNumber.finite (digitsValue radix (d :: ds))
  | _ => JSNumber.NaN

/-- `ExponentPart_opt` at the end of a literal: `none` when what is left is
not an exponent part. -/
def exponentPart : List Char → Option Int
  | [] => some 0
  | c :: cs =>
    if c = 'e' ∨ c = 'E' then
      let signed : Bool × List Char :=
        match cs with
        | '+' :: r => (false, r)
        | '-' :: r => (true, r)
        | r => (false, r)
      match spanDigits 10 signed.2 with
      | (d :: ds, []) =>
        let e : Int := digitsValue 10 (d :: ds)
        some (if signed.1 then -e else e)
      | _ => none
    else none

/-- `StrUnsignedDecimalLiteral`: `Infinity`, or digits with an optional
fraction and an optional exponent. -/
def unsignedDecimalLiteral (cs : List Char) : JSNumber :=
  if cs = "Infinity".data then JSNumber.infinity false
  else
    let ip := spanDigits 10 cs
    let fp : List Nat × List Char :=
      match ip.2 with
      | '.' :: r => spanDigits 10 r
      | r => ([], r)
    if ip.1 = [] ∧ fp.1 = [] then JSNumber.NaN
    else
      match exponentPart fp.2 with
      | none => JSNumber.NaN
      | some e =>
        let mantissa : ℚ := digitsValue 10 (ip.1 ++ fp.1)
        JSNumber.finite (mantissa * (10 : ℚ) ^ (e - fp.1.length))

def negate : JSNumber → JSNumber
  | JSNumber.NaN => JSNumber.NaN
  | JSNumber.infinity b => JSNumber.infinity (!b)
  | JSNumber.finite q => JSNumber.finite (-q)

/-- `StringToNumber`: the empty (or all-blank) string is `0`; otherwise a
binary, octal, hexadecimal or signed decimal literal; anything else is `NaN`.
(The sign of zero is not represented.) -/
def stringToNumber (s : String) : JSNumber :=
  match trimWhiteSpace s.data with
  | [] => JSNumber.finite 0
  | '0' :: 'x' :: r => nonDecimalLiteral 16 r
  | '0' :: 'X' :: r => nonDecimalLiteral 16 r
  | '0' :: 'o' :: r => nonDecimalLiteral 8 r
  | '0' :: 'O' :: r => nonDecimalLiteral 8 r
  | '0' :: 'b' :: r => nonDecimalLiteral 2 r
  | '0' :: 'B' :: r => nonDecimalLiteral 2 r
  | '+' :: r => unsignedDecimalLiteral r
  | '-' :: r => negate (unsignedDecimalLiteral r)
  | r => unsignedDecimalLiteral r

/-- Unary `+` on a value that is a string or `undefined`. -/
def unaryPlus : Option String → JSNumber
  | some s => stringToNumber s
  | none => JSNumber.NaN

/-! ### Arithmetic on numbers (IEEE 754 binary64, round to nearest, ties to even)

A finite number is kept as the rational it denotes.  An operation computes the
exact result and rounds it to 53 significant bits.  The exponent range is not
represented: the values computed here are quotients of counts, their products
with `100` and sums of five of these, far from overflow and underflow. -/

/-- The integer nearest to `y`, the even one of the two when `y` lies halfway. -/
def roundHalfEven (y : ℚ) : ℤ :=
  if y - (Int.floor y : ℚ) < 1 / 2 then Int.floor y
  else if 1 / 2 < y - (Int.floor y : ℚ) then Int.floor y + 1
  else if Int.floor y % 2 = 0 then Int.floor y
  else Int.floor y + 1

/-- The number with a 53-bit significand nearest to `x` (ties to even). -/
def roundDouble (x : ℚ) : ℚ :=
  if x = 0 then 0
  else
    (if x < 0 then -1 else 1) *
      ((roundHalfEven (|x| / (2 : ℚ) ^ (Int.log 2 |x| - 52)) : ℚ) *
        (2 : ℚ) ^ (Int.log 2 |x| - 52))

/-- The operator `+` on two finite numbers. -/
def jsAdd (a b : ℚ) : ℚ := roundDouble (a + b)

/-- The operator `*` on two finite numbers. -/
def jsMul (a b : ℚ) : ℚ := roundDouble (a * b)

/-- The operator `/` on two finite numbers, the divisor not zero. -/
def jsDiv (a b : ℚ) : ℚ := roundDouble (a / b)

/-! ### `Number.prototype.toFixed`, `Set`, `sort` -/

/-- The built-in `toFixed(f)` on a finite number below `1e21`: the integer `n`
nearest to `x * 10 ^ f` (the larger one on a tie), written in decimal with at
least one digit before the point and exactly `f` after it. -/
def toFixed (f : Nat) (x : ℚ) : String :=
  let sign : List Char := if x < 0 then ['-'] else []
  let n : Nat := (Int.floor (|x| * (10 : ℚ) ^ f + 1 / 2)).toNat
  let m : List Char := Nat.toDigits 10 n
  if f = 0 then String.mk (sign ++ m)
  else
    let padded : List Char := List.replicate (f + 1 - m.length) '0' ++ m
    let k := padded.length
    String.mk (sign ++ padded.take (k - f) ++ ['.'] ++ padded.drop (k - f))

/-- The expression `[...new Set(xs)]`: the distinct elements of `xs`, each at
the place of its first occurrence. -/
def newSet {α : Type} [DecidableEq α] (xs : List α) : List α :=
  xs.foldl (fun seen x => if x ∈ seen then seen else seen ++ [x]) []

/-- UTF-16 code units of one character. -/
def utf16 (c : Char) : List Nat :=
  if c.toNat < 0x10000 then [c.toNat]
  else [0xD800 + (c.toNat - 0x10000) / 0x400, 0xDC00 + (c.toNat - 0x10000) % 0x400]

/-- UTF-16 code units of a string, the sequence JavaScript compares. -/
def codeUnits (s : String) : List Nat :=
  (s.data.map utf16).flatten

/-- Lexicographic "not greater" on sequences of code units. -/
def codeUnitsLe : List Nat → List Nat → Bool
  | [], _ => true
  | _ :: _, [] => false
  | a :: as, b :: bs => a < b || (a == b && codeUnitsLe as bs)

/-- The order of the default comparator of `Array.prototype.sort` on strings. -/
def jsLe (a b : String) : Prop :=
  codeUnitsLe (codeUnits a) (codeUnits b) = true

instance jsLe_decidable : DecidableRel jsLe :=
  fun a b => inferInstanceAs (Decidable (codeUnitsLe (codeUnits a) (codeUnits b) = true))

/-- The call `xs.sort()` on an array of strings (stable, ascending). -/
def sort (xs : List String) : List String :=
  xs.insertionSort jsLe

/-! ## Records and the normaliser (`d3.csv(...).then`) -/

def ANTIBIOTIC_COLS : List String :=
  ["Amoxicillin", "Ciprofloxacin", "Meropenem", "Vancomycin", "Colistin"]

def MDRO_GENES : List String :=
  ["KPC", "OXA-48", "NDM-1", "VIM"]

/-- One row as the CSV reader delivers it: every column the program reads is a
string, or `undefined` when the file has no such column. -/
structure RawRow where
  Patient_ID : Option String
  Age : Option String
  Resistance_Genes : Option String
  Specimen_Type : Option String
  Gender : Option String
  Outcome : Option String
  Amoxicillin : Option String
  Ciprofloxacin : Option String
  Meropenem : Option String
  Vancomycin : Option String
  Colistin : Option String
  deriving DecidableEq

/-- The row object after the `map` callback has rewritten it. -/
structure Record where
  Patient_ID : Option String
  Age : Option JSNumber
  Resistance_Genes : Option String
  Specimen_Type : String
  Gender : Option String
  Outcome : String
  Amoxicillin : Option String
  Ciprofloxacin : Option String
  Meropenem : Option String
  Vancomycin : Option String
  Colistin : Option String
  isMDRO : Bool
  hasAnyResistance : Bool
  deriving DecidableEq

/-- Property access `d[a]` on a raw row, for `a` an antibiotic column. -/
def RawRow.get (d : RawRow) (a : String) : Option String :=
  if a = "Amoxicillin" then d.Amoxicillin
  else if a = "Ciprofloxacin" then d.Ciprofloxacin
  else if a = "Meropenem" then d.Meropenem
  else if a = "Vancomycin" then d.Vancomycin
  else if a = "Colistin" then d.Colistin
  else none

/-- Property access `d[a]` on a record, for `a` an antibiotic column. -/
def Record.get (d : Record) (a : String) : Option String :=
  if a = "Amoxicillin" then d.Amoxicillin
  else if a = "Ciprofloxacin" then d.Ciprofloxacin
  else if a = "Meropenem" then d.Meropenem
  else if a = "Vancomycin" then d.Vancomycin
  else if a = "Colistin" then d.Colistin
  else none

/-- The assignment `d.Age = isNaN(+d.Age) ? null : +d.Age`. -/
def coerceAge (age : Option String) : Option JSNumber :=
  if isNaN (unaryPlus age) then none else some (unaryPlus age)

/-- The assignment to `d.isMDRO`. -/
def isMDRO (up : String → String) (genes : Option String) : Bool :=
  let resistanceGenesString := orDefault genes "None"
  MDRO_GENES.any (fun gene => includes (up resistanceGenesString) (up gene))

/-- The callback of `ANTIBIOTIC_COLS.some` in the assignment to
`d.hasAnyResistance`, after the `ToBoolean` that `some` applies to it. -/
def isResistantOrIntermediate (up : String → String) (result : Option String) : Bool :=
  match result with
  | some r => r != "" && (up r == "RESISTANT" || up r == "INTERMEDIATE")
  | none => false

/-- The assignment to `d.hasAnyResistance`. -/
def hasAnyResistance (up : String → String) (d : RawRow) : Bool :=
  ANTIBIOTIC_COLS.any (fun a => isResistantOrIntermediate up (d.get a))

/-- The callback of `data.map`. -/
def normalize (up : String → String) (d : RawRow) : Record :=
  { Patient_ID := d.Patient_ID
    Age := coerceAge d.Age
    Resistance_Genes := d.Resistance_Genes
    Specimen_Type := orDefault d.Specimen_Type "Unknown"
    Gender := d.Gender
    Outcome := orDefault d.Outcome "Unknown"
    Amoxicillin := d.Amoxicillin
    Ciprofloxacin := d.Ciprofloxacin
    Meropenem := d.Meropenem
    Vancomycin := d.Vancomycin
    Colistin := d.Colistin
    isMDRO := isMDRO up d.Resistance_Genes
    hasAnyResistance := hasAnyResistance up d }

/-- The value assigned to `fullData`: `data.map(...).filter(d => d.Patient_ID)`. -/
def loadData (up : String → String) (data : List RawRow) : List Record :=
  (data.map (normalize up)).filter (fun d => truthy d.Patient_ID)

/-! ## Aggregation (`calculateResistanceRates`, `updateKPIs`) -/

/-- The layout argument of `Plotly.newPlot`: its title, the texts of its
annotations and its height (the other keys are constants of presentation). -/
structure Layout where
  title : String
  annotations : List String
  height : Nat
  deriving DecidableEq

/-- One data series handed to `Plotly.newPlot`. -/
inductive Trace where
  | heatmap (z : List (List String)) (x : List String) (y : List String) : Trace
  | pie (labels : List String) (values : List Nat) (colors : List String) : Trace
  | bar (x : List String) (y : List Nat) (name : String) (color : String) : Trace
  | box (y : List (Option JSNumber)) (name : String) (color : String) : Trace
  deriving DecidableEq

/-- What the program does to the outside: a `textContent` assignment, a call
of `Plotly.newPlot`, or the registration of the click handler that forwards
the clicked label to `handleCrossFilter`. -/
inductive Effect where
  | setText (elementId : String) (text : String) : Effect
  | newPlot (chartId : String) (data : List Trace) (layout : Layout) : Effect
  | onClick (chartId : String) : Effect
  deriving DecidableEq

/-- One step of the inner `filteredData.forEach` of `calculateResistanceRates`
on the counters `(resistantCount, testedCount)`. -/
def tallyStep (up : String → String) (antibiotic : String)
    (counts : Nat × Nat) (d : Record) : Nat × Nat :=
  match d.get antibiotic with
  | some result =>
    if result != "" then
      (if up result == "RESISTANT" then counts.1 + 1 else counts.1, counts.2 + 1)
    else counts
  | none => counts

/-- The counters `(resistantCount, testedCount)` after the inner loop. -/
def tally (up : String → String) (antibiotic : String) (filteredData : List Record) :
    Nat × Nat :=
  filteredData.foldl (tallyStep up antibiotic) (0, 0)

/-- The function `calculateResistanceRates`; the returned object is the list
of its entries in insertion order. -/
def calculateResistanceRates (up : String → String) (filteredData : List Record) :
    List (String × ℚ) :=
  let totalIsolates := filteredData.length
  if totalIsolates = 0 then []
  else
    ANTIBIOTIC_COLS.map (fun antibiotic =>
      let counts := tally up antibiotic filteredData
      (antibiotic,
        if counts.2 > 0 then jsMul (jsDiv (counts.1 : ℚ) (counts.2 : ℚ)) 100 else 0))

/-- The value of `avgResistanceRate` in `updateKPIs`. -/
def avgResistanceRate (up : String → String) (filteredData : List Record) : ℚ :=
  let rateValues := (calculateResistanceRates up filteredData).map Prod.snd
  let totalResistance := rateValues.foldl (fun a b => jsAdd a b) 0
  if rateValues.length > 0 then jsDiv totalResistance (rateValues.length : ℚ) else 0

/-- The function `updateKPIs`. -/
def updateKPIs (up : String → String) (filteredData : List Record) : List Effect :=
  let totalCount := filteredData.length
  if totalCount = 0 then
    [Effect.setText "kpi-total" (toString totalCount),
     Effect.setText "kpi-resistance-rate" "0.00%",
     Effect.setText "kpi-mdro-count" "0"]
  else
    let mdroCount := (filteredData.filter (fun d => d.isMDRO)).length
    [Effect.setText "kpi-total" (toString totalCount),
     Effect.setText "kpi-resistance-rate" (toFixed 2 (avgResistanceRate up filteredData) ++ "%"),
     Effect.setText "kpi-mdro-count" (toString mdroCount)]

/-! ## Chart descriptions -/

/-- The function `handleEmptyChart`. -/
def handleEmptyChart (chartId title : String) : List Effect :=
  [Effect.newPlot chartId []
    { title := title
      annotations := ["No data to display based on current filters."]
      height := 350 }]

/-- The function `renderAntibiogramHeatmap`. -/
def renderAntibiogramHeatmap (up : String → String) (filteredData : List Record)
    (crossFilterSpecimen : Option String) : List Effect :=
  if filteredData.length = 0 then
    handleEmptyChart "antibiogram-heatmap" "Antibiogram: Percent Resistance by Drug"
  else
    let rates := calculateResistanceRates up filteredData
    let antibiotics := rates.map Prod.fst
    let resistancePercent := (rates.map Prod.snd).map (toFixed 2)
    let suffix : String :=
      match crossFilterSpecimen with
      | some c => if c != "" then " (Specimen: " ++ c ++ ")" else ""
      | none => ""
    [Effect.newPlot "antibiogram-heatmap"
      [Trace.heatmap [resistancePercent] antibiotics ["Overall Resistance"]]
      { title := "Percentage Resistance by Antibiotic " ++ suffix
        annotations := []
        height := 350 }]

/-- One `push` of `d3.group`: the value joins the group of its key, a new key
opens a group after the existing ones. -/
def groupInsert {κ α : Type} [DecidableEq κ] (k : κ) (v : α) :
    List (κ × List α) → List (κ × List α)
  | [] => [(k, [v])]
  | (k', g) :: rest =>
    if k' = k then (k', g ++ [v]) :: rest else (k', g) :: groupInsert k v rest

/-- The library call `d3.group(values, key)`: a map in insertion order. -/
def group {κ α : Type} [DecidableEq κ] (values : List α) (key : α → κ) :
    List (κ × List α) :=
  values.foldl (fun m v => groupInsert (key v) v m) []

/-- The library call `d3.group(values, key1, key2)`: a map of maps. -/
def group2 {κ₁ κ₂ α : Type} [DecidableEq κ₁] [DecidableEq κ₂] (values : List α)
    (key1 : α → κ₁) (key2 : α → κ₂) : List (κ₁ × List (κ₂ × List α)) :=
  (group values key1).map (fun kg => (kg.1, group kg.2 key2))

/-- The palette `d3.schemeCategory10`. -/
def schemeCategory10 : List String :=
  ["#1f77b4", "#ff7f0e", "#2ca02c", "#d62728", "#9467bd",
   "#8c564b", "#e377c2", "#7f7f7f", "#bcbd22", "#17becf"]

/-- The colour of one pie slice. -/
def sliceColor (crossFilterSpecimen : Option String) (index : Nat) (label : String) : String :=
  if truthy crossFilterSpecimen && crossFilterSpecimen == some label then "#1a73e8"
  else if truthy crossFilterSpecimen && crossFilterSpecimen != some label then "#e0e0e0"
  else schemeCategory10.getD (index % schemeCategory10.length) ""

/-- The function `renderSpecimenPieChart`. -/
def renderSpecimenPieChart (filteredData : List Record)
    (crossFilterSpecimen : Option String) : List Effect :=
  let chartData := filteredData.filter
    (fun d => d.Specimen_Type != "Unknown" && d.Specimen_Type != "")
  let groupedData := group chartData (fun d => d.Specimen_Type)
  let labels := groupedData.map (fun kg => kg.1)
  let values := groupedData.map (fun kg => kg.2.length)
  if labels.length = 0 then
    handleEmptyChart "specimen-pie-chart" "Isolate Distribution by Specimen Type"
  else
    let colors := labels.enum.map (fun il => sliceColor crossFilterSpecimen il.1 il.2)
    [Effect.newPlot "specimen-pie-chart" [Trace.pie labels values colors]
      { title := "Isolate Count Distribution by Specimen Type"
        annotations := []
        height := 400 },
     Effect.onClick "specimen-pie-chart"]

/-- The expression `(outcomeGroup.get(flag) || []).length` of
`renderOutcomeBarChart`, with `outcomeGroup = groupedData.get(outcome) || new Map()`. -/
def groupCount (groupedData : List (String × List (Bool × List Record)))
    (outcome : String) (flag : Bool) : Nat :=
  let outcomeGroup := (groupedData.lookup outcome).getD []
  ((outcomeGroup.lookup flag).getD []).length

/-- The function `renderOutcomeBarChart`. -/
def renderOutcomeBarChart (filteredData : List Record) : List Effect :=
  let chartData := filteredData.filter (fun d => d.Outcome != "Unknown" && d.Outcome != "")
  let groupedData := group2 chartData (fun d => d.Outcome) (fun d => d.hasAnyResistance)
  let outcomes := sort ((newSet (chartData.map (fun d => d.Outcome))).filter (fun v => v != ""))
  if outcomes.length = 0 then
    handleEmptyChart "outcome-stacked-bar-chart" "Resistance Status by Patient Outcome"
  else
    let resistantCounts := outcomes.map (fun outcome => groupCount groupedData outcome true)
    let susceptibleCounts := outcomes.map (fun outcome => groupCount groupedData outcome false)
    [Effect.newPlot "outcome-stacked-bar-chart"
      [Trace.bar outcomes resistantCounts "Resistant / Intermediate" "#d93025",
       Trace.bar outcomes susceptibleCounts "Fully Susceptible" "#34a853"]
      { title := "Resistance Status by Patient Outcome"
        annotations := []
        height := 400 }]

/-- The boxes pushed onto `data` by the `outcomes.forEach` of `renderAgeBoxPlot`. -/
def ageBoxes (cleanData : List Record) (outcomes : List String) : List Trace :=
  outcomes.filterMap (fun outcome =>
    let ages := (cleanData.filter (fun d => d.Outcome == outcome)).map (fun d => d.Age)
    if ages.length > 0 then
      some (Trace.box ages outcome
        (schemeCategory10.getD (outcomes.indexOf outcome % 10) ""))
    else none)

/-- The function `renderAgeBoxPlot`. -/
def renderAgeBoxPlot (filteredData : List Record) : List Effect :=
  let cleanData := filteredData.filter
    (fun d => d.Age.isSome && d.Outcome != "Unknown" && d.Outcome != "")
  let outcomes := sort ((newSet (cleanData.map (fun d => d.Outcome))).filter (fun v => v != ""))
  if outcomes.length = 0 then
    handleEmptyChart "age-box-plot" "Patient Age Distribution by Outcome"
  else
    let data := ageBoxes cleanData outcomes
    if data.length = 0 then
      handleEmptyChart "age-box-plot" "Patient Age Distribution by Outcome"
    else
      [Effect.newPlot "age-box-plot" data
        { title := "Patient Age Distribution Across Outcomes"
          annotations := []
          height := 400 }]

/-! ## Filter state (`setupFilters`, `applyFilters`, `resetFilters`, `handleCrossFilter`) -/

/-- An `option` element of a `select`. -/
structure SelectOption where
  value : String
  text : String
  deriving DecidableEq

/-- A `select` element: its options and the value it currently reports. -/
structure Select where
  options : List SelectOption
  value : String
  deriving DecidableEq

/-- Assignment to `select.value`: the first option of that value becomes the
selected one; with no such option nothing is selected and the value reads `""`. -/
def Select.setValue (sel : Select) (v : String) : Select :=
  { sel with value := if sel.options.any (fun o => o.value == v) then v else "" }

/-- The function `populateSelect`: the `All` option, then one option per value;
the first option is the selected one. -/
def populateSelect (values : List String) : Select :=
  { options := { value := "", text := "All" } ::
      values.map (fun value => { value := value, text := value })
    value := "" }

/-- The globals of the script together with the three filter controls and the
trace of what has been written to the page. -/
structure State where
  fullData : List Record
  filteredData : List Record
  crossFilterSpecimen : Option String
  specimenFilter : Select
  genderFilter : Select
  outcomeFilter : Select
  log : List Effect
  deriving DecidableEq

/-- The three value lists computed by `setupFilters`. -/
def specimenTypes (fullData : List Record) : List String :=
  sort ((newSet (fullData.map (fun d => d.Specimen_Type))).filter
    (fun v => v != "" && v != "Unknown"))

def genders (fullData : List Record) : List String :=
  sort ((newSet (fullData.map (fun d => d.Gender))).filterMap
    (fun v => if truthy v then v else none))

def outcomes (fullData : List Record) : List String :=
  sort ((newSet (fullData.map (fun d => d.Outcome))).filter
    (fun v => v != "" && v != "Unknown"))

/-- The function `setupFilters`. -/
def setupFilters (st : State) : State :=
  { st with
    specimenFilter := populateSelect (specimenTypes st.fullData)
    genderFilter := populateSelect (genders st.fullData)
    outcomeFilter := populateSelect (outcomes st.fullData) }

/-- The function `renderDashboard`: the KPIs first, then the four charts. -/
def renderDashboard (up : String → String) (st : State) : State :=
  { st with
    log := st.log
      ++ updateKPIs up st.filteredData
      ++ renderAntibiogramHeatmap up st.filteredData st.crossFilterSpecimen
      ++ renderSpecimenPieChart st.filteredData st.crossFilterSpecimen
      ++ renderOutcomeBarChart st.filteredData
      ++ renderAgeBoxPlot st.filteredData }

/-- The expression `crossFilterSpecimen || dropdownSpecimen`. -/
def finalSpecimenFilter (crossFilterSpecimen : Option String) (dropdownSpecimen : String) :
    String :=
  orDefault crossFilterSpecimen dropdownSpecimen

/-- The predicate of `fullData.filter` in `applyFilters`. -/
def matchesFilters (finalSpecimenFilter gender outcome : String) (d : Record) : Bool :=
  (if finalSpecimenFilter != "" then d.Specimen_Type == finalSpecimenFilter else true) &&
  (if gender != "" then d.Gender == some gender else true) &&
  (if outcome != "" then d.Outcome == outcome else true)

/-- The function `applyFilters`. -/
def applyFilters (up : String → String) (st : State) : State :=
  let dropdownSpecimen := st.specimenFilter.value
  let gender := st.genderFilter.value
  let outcome := st.outcomeFilter.value
  let final := finalSpecimenFilter st.crossFilterSpecimen dropdownSpecimen
  renderDashboard up
    { st with
      filteredData := st.fullData.filter (matchesFilters final gender outcome)
      specimenFilter := st.specimenFilter.setValue final }

/-- The function `resetFilters`. -/
def resetFilters (up : String → String) (st : State) : State :=
  applyFilters up
    { st with
      specimenFilter := st.specimenFilter.setValue ""
      genderFilter := st.genderFilter.setValue ""
      outcomeFilter := st.outcomeFilter.setValue ""
      crossFilterSpecimen := none }

/-- The function `handleCrossFilter`. -/
def handleCrossFilter (up : String → String) (specimenType : String) (st : State) : State :=
  applyFilters up
    { st with
      crossFilterSpecimen :=
        if st.crossFilterSpecimen = some specimenType then none else some specimenType
      specimenFilter := st.specimenFilter.setValue "" }

/-- The effective specimen filter of a state: the cross-filter if it is set,
the value of the specimen dropdown otherwise. -/
def effectiveSpecimenFilter (st : State) : String :=
  finalSpecimenFilter st.crossFilterSpecimen st.specimenFilter.value

/-- The `then` callback of `d3.csv`, run on the parsed rows with the page as
it is delivered (the three controls not yet populated, nothing drawn). -/
def onDataLoaded (up : String → String) (data : List RawRow) : State :=
  let fullData := loadData up data
  renderDashboard up
    (setupFilters
      { fullData := fullData
        filteredData := fullData
        crossFilterSpecimen := none
        specimenFilter := { options := [], value := "" }
        genderFilter := { options := [], value := "" }
        outcomeFilter := { options := [], value := "" }
        log := [] })

/-! ## Reference definitions and sample data -/

/-- The field of the antibiotic is present in the record. -/
def isTested (antibiotic : String) (d : Record) : Bool :=
  truthy (d.get antibiotic)

/-- The field of the antibiotic is present and upper-cases to `RESISTANT`. -/
def isResistant (up : String → String) (antibiotic : String) (d : Record) : Bool :=
  match d.get antibiotic with
  | some result => result != "" && up result == "RESISTANT"
  | none => false

/-- A cell of an antibiotic column holds a result: a text that is not empty. -/
def cellTested (cell : Option String) : Bool :=
  match cell with
  | some result => result != ""
  | none => false

/-- A cell of an antibiotic column holds a result that upper-cases to
`RESISTANT`. -/
def cellResistant (up : String → String) (cell : Option String) : Bool :=
  match cell with
  | some result => result != "" && up result == "RESISTANT"
  | none => false

/-- The rate the claim names for a column: a hundred times the number of
resistant cells over the number of tested cells as an exact quotient, `0` with
no tested cell. -/
def exactRate (up : String → String) (column : List (Option String)) : ℚ :=
  let tested := (column.filter cellTested).length
  let resistant := (column.filter (cellResistant up)).length
  if tested = 0 then 0 else 100 * (resistant : ℚ) / (tested : ℚ)

/-- Reference definition of one resistance rate in the arithmetic of the
program: the number of resistant cells of the column divided by the number of
tested cells, the quotient multiplied by a hundred, each operation rounded to
a double; `0` with no tested cell. -/
def columnRateSpec (up : String → String) (column : List (Option String)) : ℚ :=
  let tested := (column.filter cellTested).length
  let resistant := (column.filter (cellResistant up)).length
  if tested = 0 then 0 else jsMul (jsDiv (resistant : ℚ) (tested : ℚ)) 100

/-- Reference definition of `calculateResistanceRates`: the empty mapping for
the empty subset, otherwise the rate of each of the five antibiotics, computed
from the column of that name. -/
def resistanceRatesSpec (up : String → String) (subset : List Record) :
    List (String × ℚ) :=
  match subset with
  | [] => []
  | _ :: _ =>
    [("Amoxicillin", columnRateSpec up (subset.map (fun d => d.Amoxicillin))),
     ("Ciprofloxacin", columnRateSpec up (subset.map (fun d => d.Ciprofloxacin))),
     ("Meropenem", columnRateSpec up (subset.map (fun d => d.Meropenem))),
     ("Vancomycin", columnRateSpec up (subset.map (fun d => d.Vancomycin))),
     ("Colistin", columnRateSpec up (subset.map (fun d => d.Colistin)))]

/-- The effects are the empty placeholder: one plot with no data series and
the fixed "no data" annotation. -/
def IsEmptyPlaceholder (effects : List Effect) : Prop :=
  ∃ chartId title height, effects =
    [Effect.newPlot chartId []
      { title := title
        annotations := ["No data to display based on current filters."]
        height := height }]

/-- The category arrays of a data series have at least one entry, and the
value arrays have the length of the category array. -/
def HasCategories : Trace → Prop
  | Trace.heatmap z x y =>
    1 ≤ x.length ∧ 1 ≤ y.length ∧ z.length = y.length ∧ ∀ row ∈ z, row.length = x.length
  | Trace.pie labels values colors =>
    1 ≤ labels.length ∧ values.length = labels.length ∧ colors.length = labels.length
  | Trace.bar x y _ _ => 1 ≤ x.length ∧ y.length = x.length
  | Trace.box y _ _ => 1 ≤ y.length

/-- The effects draw a populated chart: one plot with at least one data
series, every series with categories, and nothing else but click handlers. -/
def DrawsCategories (effects : List Effect) : Prop :=
  ∃ chartId data layout rest, effects = Effect.newPlot chartId data layout :: rest ∧
    data ≠ [] ∧ (∀ t ∈ data, HasCategories t) ∧ ∀ e ∈ rest, ∃ c, e = Effect.onClick c

/-- A raw row with a patient identifier and every other column absent. -/
def blankRow : RawRow :=
  { Patient_ID := some "P1", Age := none, Resistance_Genes := none,
    Specimen_Type := none, Gender := none, Outcome := none,
    Amoxicillin := none, Ciprofloxacin := none, Meropenem := none,
    Vancomycin := none, Colistin := none }

/-- Four rows whose `Amoxicillin` is Resistant, Resistant, Susceptible, absent. -/
def amoxicillinRows : List RawRow :=
  [{ blankRow with Amoxicillin := some "Resistant" },
   { blankRow with Amoxicillin := some "Resistant" },
   { blankRow with Amoxicillin := some "Susceptible" },
   blankRow]

/-- Three isolates: two from blood, one from urine. -/
def sampleRows : List RawRow :=
  [{ blankRow with
      Patient_ID := some "P1", Specimen_Type := some "Blood", Gender := some "F",
      Outcome := some "Recovered", Age := some "34" },
   { blankRow with
      Patient_ID := some "P2", Specimen_Type := some "Urine", Gender := some "M",
      Outcome := some "Deceased", Age := some "" },
   { blankRow with
      Patient_ID := some "P3", Specimen_Type := some "Blood", Gender := some "Unknown",
      Outcome := some "Recovered", Age := some "n/a" }]

/-- The page after the sample rows are loaded and the user has picked `Blood`
in the specimen dropdown. -/
def sampleState : State :=
  let loaded := onDataLoaded toUpperCase sampleRows
  applyFilters toUpperCase
    { loaded with specimenFilter := loaded.specimenFilter.setValue "Blood" }

/-- The page after the sample rows are loaded and the user has picked `F` in
the gender dropdown. -/
def genderPickedState : State :=
  let loaded := onDataLoaded toUpperCase sampleRows
  applyFilters toUpperCase
    { loaded with genderFilter := loaded.genderFilter.setValue "F" }

/-- One run of the pipeline from `before` to `after`: the full record set is
untouched, the filtered set is recomputed from it, and the page receives, in
this order and once each, the KPI texts, the heatmap, the specimen pie, the
outcome bar chart and the age box plot of that filtered set. -/
def RunsPipeline (up : String → String) (before after : State) : Prop :=
  after.fullData = before.fullData ∧
  (∃ specimen gender outcome : String,
    after.filteredData = before.fullData.filter (matchesFilters specimen gender outcome)) ∧
  after.log = before.log
    ++ updateKPIs up after.filteredData
    ++ renderAntibiogramHeatmap up after.filteredData after.crossFilterSpecimen
    ++ renderSpecimenPieChart after.filteredData after.crossFilterSpecimen
    ++ renderOutcomeBarChart after.filteredData
    ++ renderAgeBoxPlot after.filteredData

/-- The chart surfaces drawn by a list of effects, in the order of the calls
of `Plotly.newPlot`. -/
def plotIds (effects : List Effect) : List String :=
  effects.filterMap (fun e =>
    match e with
    | Effect.newPlot chartId _ _ => some chartId
    | _ => none)

/-- The elements whose text a list of effects assigns, in order. -/
def textIds (effects : List Effect) : List String :=
  effects.filterMap (fun e =>
    match e with
    | Effect.setText elementId _ => some elementId
    | _ => none)

/-- A `select` element reports the value of one of its options, or `""` when
none is selected. -/
def Select.Valid (sel : Select) : Prop :=
  sel.value = "" ∨ sel.options.any (fun o => o.value == sel.value) = true

instance Select.Valid_decidable (sel : Select) : Decidable sel.Valid :=
  inferInstanceAs (Decidable (sel.value = "" ∨ _ = true))

/-- The value of `cleanData` in `renderAgeBoxPlot`. -/
def ageCleanData (filteredData : List Record) : List Record :=
  filteredData.filter (fun d => d.Age.isSome && d.Outcome != "Unknown" && d.Outcome != "")

/-- The value of `outcomes` in `renderAgeBoxPlot`. -/
def ageOutcomes (filteredData : List Record) : List String :=
  sort ((newSet ((ageCleanData filteredData).map (fun d => d.Outcome))).filter
    (fun v => v != ""))

/-- The layout of the populated age box plot. -/
def ageBoxLayout : Layout :=
  { title := "Patient Age Distribution Across Outcomes", annotations := [], height := 400 }

/-- The layout of the populated outcome bar chart. -/
def outcomeBarLayout : Layout :=
  { title := "Resistance Status by Patient Outcome", annotations := [], height := 400 }

/-- The value of `chartData` in `renderOutcomeBarChart`. -/
def barChartData (filteredData : List Record) : List Record :=
  filteredData.filter (fun d => d.Outcome != "Unknown" && d.Outcome != "")

/-- The value of `outcomes` in `renderOutcomeBarChart`. -/
def barOutcomes (filteredData : List Record) : List String :=
  sort ((newSet ((barChartData filteredData).map (fun d => d.Outcome))).filter
    (fun v => v != ""))

/-- The value of `chartData` in `renderSpecimenPieChart`. -/
def pieChartData (filteredData : List Record) : List Record :=
  filteredData.filter (fun d => d.Specimen_Type != "Unknown" && d.Specimen_Type != "")

/-- The layout of the populated specimen pie. -/
def pieLayout : Layout :=
  { title := "Isolate Count Distribution by Specimen Type", annotations := [], height := 400 }

/-- The page after the sample rows are loaded and the `Blood` slice of the
specimen pie has been clicked. -/
def crossFilteredState : State :=
  handleCrossFilter toUpperCase "Blood" (onDataLoaded toUpperCase sampleRows)

/-- The labels of the specimen pie drawn from the filtered set of a state, the
only values the click handler can pass to `handleCrossFilter`. -/
def pieLabels (st : State) : List String :=
  (group (pieChartData st.filteredData) (fun d => d.Specimen_Type)).map Prod.fst

/-- The states the page can be in after the rows `data` are loaded: the state
built by the load callback, and from any such state the one left by the user
picking an option of a dropdown, by a run of `applyFilters`, by `resetFilters`,
or by a click on a slice of the pie that is on display. -/
inductive Reachable (up : String → String) (data : List RawRow) : State → Prop where
  | loaded : Reachable up data (onDataLoaded up data)
  | pickSpecimen (st : State) (o : SelectOption) :
      Reachable up data st → o ∈ st.specimenFilter.options →
      Reachable up data { st with specimenFilter := { st.specimenFilter with value := o.value } }
  | pickGender (st : State) (o : SelectOption) :
      Reachable up data st → o ∈ st.genderFilter.options →
      Reachable up data { st with genderFilter := { st.genderFilter with value := o.value } }
  | pickOutcome (st : State) (o : SelectOption) :
      Reachable up data st → o ∈ st.outcomeFilter.options →
      Reachable up data { st with outcomeFilter := { st.outcomeFilter with value := o.value } }
  | apply (st : State) : Reachable up data st → Reachable up data (applyFilters up st)
  | reset (st : State) : Reachable up data st → Reachable up data (resetFilters up st)
  | click (st : State) (label : String) :
      Reachable up data st → label ∈ pieLabels st →
      Reachable up data (handleCrossFilter up label st)

/-- What every reachable state satisfies: the specimen dropdown holds the
options written by `setupFilters` and reports one of them or nothing, a
cross-filter is one of these options, and the filtered records are records of
the full set. -/
def Consistent (st : State) : Prop :=
  st.specimenFilter.options = (populateSelect (specimenTypes st.fullData)).options ∧
  (st.specimenFilter.value = "" ∨ st.specimenFilter.value ∈ specimenTypes st.fullData) ∧
  (∀ c, st.crossFilterSpecimen = some c → c ∈ specimenTypes st.fullData) ∧
  (∀ d ∈ st.filteredData, d ∈ st.fullData)

/-- Reference definition of "the distinct elements in order of first
occurrence": the head, then the distinct elements of the tail other than it. -/
def firstOccurrences {α : Type} [DecidableEq α] : List α → List α
  | [] => []
  | x :: xs => x :: (firstOccurrences xs).filter (fun y => decide (y ≠ x))

/-- A hundred and sixty rows: twenty-three whose Amoxicillin is Resistant and
that carry the gene KPC, and a hundred and thirty-seven whose Amoxicillin is
Susceptible. -/
def kpiSampleRows : List RawRow :=
  List.replicate 23
      { blankRow with Amoxicillin := some "Resistant", Resistance_Genes := some "KPC" } ++
    List.replicate 137 { blankRow with Amoxicillin := some "Susceptible" }

/-- A cell of an antibiotic column marks resistance: it is present, not empty,
and upper-cases to `RESISTANT` or `INTERMEDIATE`. -/
def MarksResistance (up : String → String) (cell : Option String) : Prop :=
  ∃ result, cell = some result ∧ result ≠ "" ∧
    (up result = "RESISTANT" ∨ up result = "INTERMEDIATE")

/-- The sample page with a cross-filter that is none of the specimen types of
the data, as a call `handleCrossFilter("Plasma")` from outside the page's own
handlers would leave it. -/
def staleCrossState : State :=
  { onDataLoaded toUpperCase sampleRows with crossFilterSpecimen := some "Plasma" }

/-! ## Theorems -/

/-! ### Rounding to a double -/

theorem roundHalfEven_le (y : ℚ) (N : ℤ) (h : y ≤ N) : roundHalfEven y ≤ N := by
  have hfl : Int.floor y ≤ N := by
    have := Int.floor_le y
    exact_mod_cast (Int.floor_le y).trans h
  unfold roundHalfEven
  by_cases h1 : y - (Int.floor y : ℚ) < 1 / 2
  · simp only [h1, if_true]
    exact hfl
  · have hlt : Int.floor y < N := by
      rcases lt_or_eq_of_le hfl with hlt | heq
      · exact hlt
      · exfalso
        apply h1
        have hyN : y = (N : ℚ) := le_antisymm h (by rw [← heq]; exact Int.floor_le y)
        rw [heq, hyN]
        norm_num
    simp only [h1, if_false]
    split
    · omega
    · split <;> omega

theorem roundHalfEven_nonneg (y : ℚ) (h : 0 ≤ y) : 0 ≤ roundHalfEven y := by
  have hfl : 0 ≤ Int.floor y := Int.floor_nonneg.mpr h
  unfold roundHalfEven
  split
  · exact hfl
  · split
    · omega
    · split <;> omega

theorem roundHalfEven_eq (y : ℚ) (n : ℤ) (h : |y - n| < 1 / 2) : roundHalfEven y = n := by
  rw [abs_lt] at h
  obtain ⟨hlo, hhi⟩ := h
  unfold roundHalfEven
  by_cases hny : (n : ℚ) ≤ y
  · have hfl : Int.floor y = n := by
      rw [Int.floor_eq_iff]
      constructor
      · exact hny
      · linarith
    rw [hfl]
    have h1 : y - (n : ℚ) < 1 / 2 := hhi
    simp only [h1, if_true]
  · have hfl : Int.floor y = n - 1 := by
      rw [Int.floor_eq_iff]
      push_cast
      constructor
      · linarith
      · linarith
    rw [hfl]
    push_cast
    have h1 : ¬ (y - ((n : ℚ) - 1) < 1 / 2) := by
      intro hc
      linarith
    have h2 : 1 / 2 < y - ((n : ℚ) - 1) := by linarith
    simp only [h1, h2, if_true, if_false]
    ring

theorem log_eq_of_bounds (x : ℚ) (e : ℤ) (hx : 0 < x) (hlo : (2 : ℚ) ^ e ≤ x)
    (hhi : x < (2 : ℚ) ^ (e + 1)) : Int.log 2 x = e := by
  have h1 : e ≤ Int.log 2 x := by
    rw [← Int.zpow_le_iff_le_log (by norm_num) hx]
    exact_mod_cast hlo
  have h2 : Int.log 2 x < e + 1 := by
    rw [← Int.lt_zpow_iff_log_lt (by norm_num) hx]
    exact_mod_cast hhi
  omega

theorem roundDouble_zero : roundDouble 0 = 0 := by
  simp [roundDouble]

theorem roundDouble_of_pos (x : ℚ) (hx : 0 < x) :
    roundDouble x =
      (roundHalfEven (x / (2 : ℚ) ^ (Int.log 2 x - 52)) : ℚ) * (2 : ℚ) ^ (Int.log 2 x - 52) := by
  have h0 : x ≠ 0 := ne_of_gt hx
  have hneg : ¬ x < 0 := not_lt.mpr hx.le
  simp only [roundDouble, h0, hneg, if_false, abs_of_pos hx, one_mul]

theorem roundDouble_nonneg (x : ℚ) (h : 0 ≤ x) : 0 ≤ roundDouble x := by
  rcases eq_or_lt_of_le h with h0 | hpos
  · rw [← h0, roundDouble_zero]
  · rw [roundDouble_of_pos x hpos]
    have hulp : (0 : ℚ) < (2 : ℚ) ^ (Int.log 2 x - 52) := zpow_pos (by norm_num) _
    have hr : 0 ≤ roundHalfEven (x / (2 : ℚ) ^ (Int.log 2 x - 52)) :=
      roundHalfEven_nonneg _ (div_nonneg h hulp.le)
    have hr' : (0 : ℚ) ≤ (roundHalfEven (x / (2 : ℚ) ^ (Int.log 2 x - 52)) : ℚ) := by
      exact_mod_cast hr
    exact mul_nonneg hr' hulp.le

theorem roundDouble_le_nat (x : ℚ) (c : ℕ) (h0 : 0 ≤ x) (hxc : x ≤ c) (hc : c < 2 ^ 53) :
    roundDouble x ≤ c := by
  rcases eq_or_lt_of_le h0 with hz | hpos
  · rw [← hz, roundDouble_zero]
    exact Nat.cast_nonneg c
  · rw [roundDouble_of_pos x hpos]
    have hlt : x < (2 : ℚ) ^ (53 : ℤ) := by
      have hc' : (c : ℚ) < (2 : ℚ) ^ (53 : ℕ) := by exact_mod_cast hc
      have : (2 : ℚ) ^ (53 : ℤ) = (2 : ℚ) ^ (53 : ℕ) := by norm_num
      rw [this]
      exact lt_of_le_of_lt hxc hc'
    have hlog : Int.log 2 x < 53 := by
      rw [← Int.lt_zpow_iff_log_lt (by norm_num) hpos]
      exact_mod_cast hlt
    obtain ⟨k, hk⟩ : ∃ k : ℕ, Int.log 2 x - 52 = -(k : ℤ) :=
      ⟨(52 - Int.log 2 x).toNat, by omega⟩
    rw [hk, zpow_neg, zpow_natCast]
    have hpow : (0 : ℚ) < (2 : ℚ) ^ k := pow_pos (by norm_num) k
    have hy : x / ((2 : ℚ) ^ k)⁻¹ ≤ ((c * 2 ^ k : ℕ) : ℤ) := by
      rw [div_inv_eq_mul]
      push_cast
      exact mul_le_mul_of_nonneg_right hxc hpow.le
    have hr := roundHalfEven_le _ _ hy
    have hr' : (roundHalfEven (x / ((2 : ℚ) ^ k)⁻¹) : ℚ) ≤ (c : ℚ) * (2 : ℚ) ^ k := by
      have : ((roundHalfEven (x / ((2 : ℚ) ^ k)⁻¹) : ℤ) : ℚ) ≤ (((c * 2 ^ k : ℕ) : ℤ) : ℚ) := by
        exact_mod_cast hr
      simpa using this
    calc (roundHalfEven (x / ((2 : ℚ) ^ k)⁻¹) : ℚ) * ((2 : ℚ) ^ k)⁻¹
        ≤ ((c : ℚ) * (2 : ℚ) ^ k) * ((2 : ℚ) ^ k)⁻¹ :=
          mul_le_mul_of_nonneg_right hr' (inv_nonneg.mpr hpow.le)
      _ = c := by field_simp

theorem roundDouble_eq (x : ℚ) (e n : ℤ) (hlo : (2 : ℚ) ^ e ≤ x) (hhi : x < (2 : ℚ) ^ (e + 1))
    (hn : |x / (2 : ℚ) ^ (e - 52) - n| < 1 / 2) :
    roundDouble x = (n : ℚ) * (2 : ℚ) ^ (e - 52) := by
  have hx : 0 < x := lt_of_lt_of_le (zpow_pos (by norm_num) e) hlo
  rw [roundDouble_of_pos x hx, log_eq_of_bounds x e hx hlo hhi, roundHalfEven_eq _ n hn]

theorem tally_foldl (up : String → String) (a : String) (data : List Record)
    (acc : Nat × Nat) :
    data.foldl (tallyStep up a) acc =
      (acc.1 + (data.filter (isResistant up a)).length,
       acc.2 + (data.filter (isTested a)).length) := by
  induction data generalizing acc with
  | nil => simp
  | cons d ds ih =>
    rw [List.foldl_cons, ih]
    cases hget : d.get a with
    | none => simp [tallyStep, isResistant, isTested, truthy, hget, List.filter_cons]
    | some r =>
      by_cases hr : r = ""
      · simp [tallyStep, isResistant, isTested, truthy, hget, hr, List.filter_cons]
      · by_cases hu : up r = "RESISTANT"
        · simp [tallyStep, isResistant, isTested, truthy, hget, hr, hu, List.filter_cons]
          omega
        · simp [tallyStep, isResistant, isTested, truthy, hget, hr, hu, List.filter_cons]
          omega

theorem tally_eq (up : String → String) (a : String) (data : List Record) :
    tally up a data =
      ((data.filter (isResistant up a)).length, (data.filter (isTested a)).length) := by
  simp [tally, tally_foldl]

theorem tally_column (up : String → String) (a : String) (f : Record → Option String)
    (hf : ∀ d : Record, d.get a = f d) (data : List Record) :
    tally up a data =
      (((data.map f).filter (cellResistant up)).length,
       ((data.map f).filter cellTested).length) := by
  rw [tally_eq, List.filter_map, List.filter_map, List.length_map, List.length_map]
  have h1 : isResistant up a = cellResistant up ∘ f := by
    funext d
    simp only [isResistant, cellResistant, Function.comp_apply, hf d]
  have h2 : isTested a = cellTested ∘ f := by
    funext d
    simp only [isTested, truthy, cellTested, Function.comp_apply, hf d]
  rw [h1, h2]

theorem rate_column (up : String → String) (a : String) (f : Record → Option String)
    (hf : ∀ d : Record, d.get a = f d) (data : List Record) :
    (if (tally up a data).2 > 0
      then jsMul (jsDiv ((tally up a data).1 : ℚ) ((tally up a data).2 : ℚ)) 100 else 0) =
    columnRateSpec up (data.map f) := by
  rw [tally_column up a f hf]
  unfold columnRateSpec
  by_cases h : ((data.map f).filter cellTested).length = 0
  · simp [h]
  · have hpos : ((data.map f).filter cellTested).length > 0 := Nat.pos_of_ne_zero h
    simp only [hpos, h, if_true, if_false]

theorem calculateResistanceRates_cons (up : String → String) (d : Record)
    (ds : List Record) :
    calculateResistanceRates up (d :: ds) = resistanceRatesSpec up (d :: ds) := by
  simp only [calculateResistanceRates, resistanceRatesSpec, List.length_cons,
    Nat.succ_ne_zero, if_false, ANTIBIOTIC_COLS, List.map_cons, List.map_nil]
  rw [rate_column up "Amoxicillin" (fun d => d.Amoxicillin) (fun _ => rfl),
    rate_column up "Ciprofloxacin" (fun d => d.Ciprofloxacin) (fun _ => rfl),
    rate_column up "Meropenem" (fun d => d.Meropenem) (fun _ => rfl),
    rate_column up "Vancomycin" (fun d => d.Vancomycin) (fun _ => rfl),
    rate_column up "Colistin" (fun d => d.Colistin) (fun _ => rfl)]
  rfl

theorem roundHalfEven_abs_sub_le (y : ℚ) : |(roundHalfEven y : ℚ) - y| ≤ 1 / 2 := by
  have h1 := Int.floor_le y
  have h2 := Int.lt_floor_add_one y
  rw [abs_le]
  unfold roundHalfEven
  by_cases ha : y - (Int.floor y : ℚ) < 1 / 2
  · simp only [ha, if_true]
    constructor <;> linarith
  · simp only [ha, if_false]
    have ha' : 1 / 2 ≤ y - (Int.floor y : ℚ) := not_lt.mp ha
    by_cases hb : 1 / 2 < y - (Int.floor y : ℚ)
    · simp only [hb, if_true]
      push_cast
      constructor <;> linarith
    · simp only [hb, if_false]
      have hb' : y - (Int.floor y : ℚ) ≤ 1 / 2 := not_lt.mp hb
      split
      · constructor <;> linarith
      · push_cast
        constructor <;> linarith

theorem roundDouble_rel (x : ℚ) (hx : 0 ≤ x) : |roundDouble x - x| ≤ x / 2 ^ 53 := by
  rcases eq_or_lt_of_le hx with hz | hpos
  · rw [← hz, roundDouble_zero]
    simp
  · rw [roundDouble_of_pos x hpos]
    have hulp : (0 : ℚ) < (2 : ℚ) ^ (Int.log 2 x - 52) := zpow_pos (by norm_num) _
    have hlog : (2 : ℚ) ^ Int.log 2 x ≤ x := by
      have := Int.zpow_log_le_self (b := 2) (r := x) (by norm_num) hpos
      exact_mod_cast this
    have hsplit : (2 : ℚ) ^ (Int.log 2 x - 52) = (2 : ℚ) ^ Int.log 2 x / 2 ^ 52 := by
      rw [zpow_sub₀ (by norm_num : (2 : ℚ) ≠ 0)]
      norm_num
    have hr := roundHalfEven_abs_sub_le (x / (2 : ℚ) ^ (Int.log 2 x - 52))
    have heq : (roundHalfEven (x / (2 : ℚ) ^ (Int.log 2 x - 52)) : ℚ) *
        (2 : ℚ) ^ (Int.log 2 x - 52) - x =
        ((roundHalfEven (x / (2 : ℚ) ^ (Int.log 2 x - 52)) : ℚ) -
          x / (2 : ℚ) ^ (Int.log 2 x - 52)) * (2 : ℚ) ^ (Int.log 2 x - 52) := by
      field_simp
    rw [heq, abs_mul, abs_of_pos hulp]
    calc |(roundHalfEven (x / (2 : ℚ) ^ (Int.log 2 x - 52)) : ℚ) -
          x / (2 : ℚ) ^ (Int.log 2 x - 52)| * (2 : ℚ) ^ (Int.log 2 x - 52)
        ≤ 1 / 2 * (2 : ℚ) ^ (Int.log 2 x - 52) := mul_le_mul_of_nonneg_right hr hulp.le
      _ = (2 : ℚ) ^ Int.log 2 x / 2 ^ 53 := by
          rw [hsplit]
          ring
      _ ≤ x / 2 ^ 53 := by
          apply div_le_div_of_nonneg_right hlog
          positivity

theorem columnRateSpec_near_exact (up : String → String) (column : List (Option String)) :
    |columnRateSpec up column - exactRate up column| ≤ exactRate up column * (3 / 2 ^ 53) := by
  unfold columnRateSpec exactRate
  simp only
  by_cases ht : (column.filter cellTested).length = 0
  · simp [ht]
  · simp only [ht, if_false]
    generalize hq : ((column.filter (cellResistant up)).length : ℚ) /
      ((column.filter cellTested).length : ℚ) = q
    have hq0 : 0 ≤ q := by
      rw [← hq]
      positivity
    have hexact : 100 * ((column.filter (cellResistant up)).length : ℚ) /
        ((column.filter cellTested).length : ℚ) = 100 * q := by
      rw [← hq]
      ring
    rw [hexact]
    unfold jsMul jsDiv
    rw [hq]
    have ha := roundDouble_rel q hq0
    have ha0 := roundDouble_nonneg q hq0
    have hb := roundDouble_rel (roundDouble q * 100) (by positivity)
    rw [abs_le] at ha hb ⊢
    have hu : (0 : ℚ) < 1 / 2 ^ 53 := by positivity
    have hu1 : (1 : ℚ) / 2 ^ 53 ≤ 1 := by norm_num
    have hau : roundDouble q ≤ q * (1 + 1 / 2 ^ 53) := by
      have := ha.2
      linarith [show q / 2 ^ 53 = q * (1 / 2 ^ 53) by ring]
    have hqu : 0 ≤ q * (1 / 2 ^ 53) := mul_nonneg hq0 hu.le
    have hquu : q * (1 / 2 ^ 53) * (1 / 2 ^ 53) ≤ q * (1 / 2 ^ 53) := by
      calc q * (1 / 2 ^ 53) * (1 / 2 ^ 53) ≤ q * (1 / 2 ^ 53) * 1 :=
            mul_le_mul_of_nonneg_left hu1 hqu
        _ = q * (1 / 2 ^ 53) := by ring
    have hb1 : roundDouble q * 100 / 2 ^ 53 ≤ 100 * (q * (1 / 2 ^ 53)) +
        100 * (q * (1 / 2 ^ 53) * (1 / 2 ^ 53)) := by
      have : roundDouble q * 100 / 2 ^ 53 = roundDouble q * (100 * (1 / 2 ^ 53)) := by ring
      rw [this]
      calc roundDouble q * (100 * (1 / 2 ^ 53))
          ≤ q * (1 + 1 / 2 ^ 53) * (100 * (1 / 2 ^ 53)) :=
            mul_le_mul_of_nonneg_right hau (by positivity)
        _ = 100 * (q * (1 / 2 ^ 53)) + 100 * (q * (1 / 2 ^ 53) * (1 / 2 ^ 53)) := by ring
    have hq53 : q / 2 ^ 53 = q * (1 / 2 ^ 53) := by ring
    have hgoal : 100 * q * (3 / 2 ^ 53) = 300 * (q * (1 / 2 ^ 53)) := by ring
    rw [hgoal]
    constructor <;> linarith [ha.1, ha.2, hb.1, hb.2]

theorem amoxicillin_tally :
    tally toUpperCase "Amoxicillin" (loadData toUpperCase amoxicillinRows) = (2, 3) := by
  decide

theorem jsDiv_2_3 : jsDiv 2 3 = 6004799503160661 / 9007199254740992 := by
  unfold jsDiv
  rw [roundDouble_eq (2 / 3) (-1) 6004799503160661 (by norm_num) (by norm_num)
    (by rw [abs_lt]; constructor <;> norm_num)]
  norm_num

theorem jsMul_2_3_100 : jsMul (jsDiv 2 3) 100 = 2345624805922133 / 35184372088832 := by
  rw [jsDiv_2_3]
  unfold jsMul
  rw [roundDouble_eq _ 6 4691249611844266 (by norm_num) (by norm_num)
    (by rw [abs_lt]; constructor <;> norm_num)]
  norm_num

theorem amoxicillin_rate :
    (calculateResistanceRates toUpperCase (loadData toUpperCase amoxicillinRows)).lookup
      "Amoxicillin" = some (2345624805922133 / 35184372088832) := by
  have h : (loadData toUpperCase amoxicillinRows).length ≠ 0 := by decide
  simp only [calculateResistanceRates, h, if_false, ANTIBIOTIC_COLS, List.map_cons,
    amoxicillin_tally, List.lookup]
  norm_num [jsMul_2_3_100]

theorem amoxicillin_exactRate :
    exactRate toUpperCase
      ((loadData toUpperCase amoxicillinRows).map (fun d => d.Amoxicillin)) = 200 / 3 := by
  have h1 : (((loadData toUpperCase amoxicillinRows).map (fun d => d.Amoxicillin)).filter
      cellTested).length = 3 := by decide
  have h2 : (((loadData toUpperCase amoxicillinRows).map (fun d => d.Amoxicillin)).filter
      (cellResistant toUpperCase)).length = 2 := by decide
  unfold exactRate
  simp only [h1, h2]
  norm_num

theorem floor_amoxicillin :
    Int.floor (|(2345624805922133 / 35184372088832 : ℚ)| * (10 : ℚ) ^ 2 + 1 / 2) = 6667 := by
  rw [Int.floor_eq_iff]
  constructor <;> norm_num [abs_of_pos]

theorem toFixed_amoxicillin :
    toFixed 2 (2345624805922133 / 35184372088832) = "66.67" := by
  have hsign : ¬ ((2345624805922133 / 35184372088832 : ℚ) < 0) := by norm_num
  unfold toFixed
  rw [floor_amoxicillin]
  simp only [hsign, if_false]
  decide

theorem roundDouble_200_3 : roundDouble (200 / 3) = 4691249611844267 / 70368744177664 := by
  rw [roundDouble_eq (200 / 3) 6 4691249611844267 (by norm_num) (by norm_num)
    (by rw [abs_lt]; constructor <;> norm_num)]
  norm_num

set_option maxRecDepth 100000 in
theorem kpiSample_tallies :
    tally toUpperCase "Amoxicillin" (loadData toUpperCase kpiSampleRows) = (23, 160) ∧
    tally toUpperCase "Ciprofloxacin" (loadData toUpperCase kpiSampleRows) = (0, 0) ∧
    tally toUpperCase "Meropenem" (loadData toUpperCase kpiSampleRows) = (0, 0) ∧
    tally toUpperCase "Vancomycin" (loadData toUpperCase kpiSampleRows) = (0, 0) ∧
    tally toUpperCase "Colistin" (loadData toUpperCase kpiSampleRows) = (0, 0) := by
  decide

set_option maxRecDepth 100000 in
theorem kpiSample_counts :
    (loadData toUpperCase kpiSampleRows).length = 160 ∧
    ((loadData toUpperCase kpiSampleRows).filter (fun d => d.isMDRO)).length = 23 := by
  decide

theorem jsDiv_23_160 : jsDiv 23 160 = 5179139571476070 / 36028797018963968 := by
  unfold jsDiv
  rw [roundDouble_eq (23 / 160) (-3) 5179139571476070 (by norm_num) (by norm_num)
    (by rw [abs_lt]; constructor <;> norm_num)]
  norm_num

theorem jsMul_23_160_100 :
    jsMul (jsDiv 23 160) 100 = 8092405580431359 / 562949953421312 := by
  rw [jsDiv_23_160]
  unfold jsMul
  rw [roundDouble_eq _ 3 8092405580431359 (by norm_num) (by norm_num)
    (by rw [abs_lt]; constructor <;> norm_num)]
  norm_num

theorem kpiSample_rates :
    calculateResistanceRates toUpperCase (loadData toUpperCase kpiSampleRows) =
      [("Amoxicillin", 8092405580431359 / 562949953421312), ("Ciprofloxacin", 0),
       ("Meropenem", 0), ("Vancomycin", 0), ("Colistin", 0)] := by
  obtain ⟨h1, h2, h3, h4, h5⟩ := kpiSample_tallies
  have hlen : (loadData toUpperCase kpiSampleRows).length ≠ 0 := by
    rw [kpiSample_counts.1]
    decide
  simp only [calculateResistanceRates, hlen, if_false, ANTIBIOTIC_COLS, List.map_cons,
    List.map_nil, h1, h2, h3, h4, h5]
  norm_num [jsMul_23_160_100]

set_option maxRecDepth 100000 in
theorem kpiSample_exactRate :
    exactRate toUpperCase
      ((loadData toUpperCase kpiSampleRows).map (fun d => d.Amoxicillin)) = 115 / 8 := by
  have h1 : (((loadData toUpperCase kpiSampleRows).map (fun d => d.Amoxicillin)).filter
      cellTested).length = 160 := by decide
  have h2 : (((loadData toUpperCase kpiSampleRows).map (fun d => d.Amoxicillin)).filter
      (cellResistant toUpperCase)).length = 23 := by decide
  unfold exactRate
  simp only [h1, h2]
  norm_num

theorem toFixed_exact_kpiRate : toFixed 2 (115 / 8) = "14.38" := by
  have hfloor : Int.floor (|(115 / 8 : ℚ)| * (10 : ℚ) ^ 2 + 1 / 2) = 1438 := by
    rw [Int.floor_eq_iff]
    constructor <;> norm_num [abs_of_pos]
  have hsign : ¬ ((115 / 8 : ℚ) < 0) := by norm_num
  unfold toFixed
  rw [hfloor]
  simp only [hsign, if_false]
  decide

theorem toFixed_kpiRate : toFixed 2 (8092405580431359 / 562949953421312) = "14.37" := by
  have hfloor : Int.floor (|(8092405580431359 / 562949953421312 : ℚ)| * (10 : ℚ) ^ 2 + 1 / 2)
      = 1437 := by
    rw [Int.floor_eq_iff]
    constructor <;> norm_num [abs_of_pos]
  have hsign : ¬ ((8092405580431359 / 562949953421312 : ℚ) < 0) := by norm_num
  unfold toFixed
  rw [hfloor]
  simp only [hsign, if_false]
  decide

/-- C1 (as stated, refuted): on four records whose Amoxicillin is Resistant,
Resistant, Susceptible, absent, a hundred times resistant over tested is
200/3, and the rate `calculateResistanceRates` returns is another number, the
double 66.66666666666666, which is not the double nearest to 200/3 either.
On 23 resistant and 137 susceptible results a hundred times resistant over
tested is 14.375, shown as 14.38, and the returned rate is shown as 14.37. -/
theorem amoxicillin_rate_not_exact :
    exactRate toUpperCase
      ((loadData toUpperCase amoxicillinRows).map (fun d => d.Amoxicillin)) = 200 / 3 ∧
    (calculateResistanceRates toUpperCase (loadData toUpperCase amoxicillinRows)).lookup
      "Amoxicillin" = some (2345624805922133 / 35184372088832) ∧
    (calculateResistanceRates toUpperCase (loadData toUpperCase amoxicillinRows)).lookup
      "Amoxicillin" ≠ some (200 / 3) ∧
    (calculateResistanceRates toUpperCase (loadData toUpperCase amoxicillinRows)).lookup
      "Amoxicillin" ≠ some (roundDouble (200 / 3)) ∧
    exactRate toUpperCase
      ((loadData toUpperCase kpiSampleRows).map (fun d => d.Amoxicillin)) = 115 / 8 ∧
    toFixed 2 (115 / 8) = "14.38" ∧
    (calculateResistanceRates toUpperCase (loadData toUpperCase kpiSampleRows)).lookup
      "Amoxicillin" = some (8092405580431359 / 562949953421312) ∧
    toFixed 2 (8092405580431359 / 562949953421312) = "14.37" := by
  refine ⟨amoxicillin_exactRate, amoxicillin_rate, ?_, ?_, kpiSample_exactRate,
    toFixed_exact_kpiRate, ?_, toFixed_kpiRate⟩
  · rw [amoxicillin_rate]
    norm_num
  · rw [amoxicillin_rate, roundDouble_200_3]
    norm_num
  · rw [kpiSample_rates]
    rfl

/-- C1 (amended): `calculateResistanceRates` returns the empty mapping for the
empty set and otherwise, for each of the five antibiotics, the number of
resistant cells of its column divided by the number of tested cells and then
multiplied by a hundred, in double arithmetic (`0` with no tested cell); this
is within a relative error of 3/2^53 of a hundred times resistant over
tested.  On four records whose Amoxicillin is Resistant, Resistant,
Susceptible, absent the rate is 66.66666666666666, shown as 66.67. -/
theorem calculateResistanceRates_eq_spec :
    (∀ (up : String → String) (data : List Record),
      calculateResistanceRates up data = resistanceRatesSpec up data) ∧
    (∀ (up : String → String) (column : List (Option String)),
      |columnRateSpec up column - exactRate up column| ≤
        exactRate up column * (3 / 2 ^ 53)) ∧
    (calculateResistanceRates toUpperCase (loadData toUpperCase amoxicillinRows)).lookup
      "Amoxicillin" = some (2345624805922133 / 35184372088832) ∧
    toFixed 2 (2345624805922133 / 35184372088832) = "66.67" := by
  refine ⟨?_, columnRateSpec_near_exact, amoxicillin_rate, toFixed_amoxicillin⟩
  intro up data
  cases data with
  | nil => simp [calculateResistanceRates, resistanceRatesSpec]
  | cons d ds => exact calculateResistanceRates_cons up d ds

/-! ### Filtering -/

theorem renderDashboard_filteredData (up : String → String) (st : State) :
    (renderDashboard up st).filteredData = st.filteredData := rfl

theorem matchesFilters_iff (f g o : String) (d : Record) :
    matchesFilters f g o d = true ↔
      (f = "" ∨ d.Specimen_Type = f) ∧ (g = "" ∨ d.Gender = some g) ∧
        (o = "" ∨ d.Outcome = o) := by
  unfold matchesFilters
  by_cases hf : f = "" <;> by_cases hg : g = "" <;> by_cases ho : o = "" <;>
    simp [hf, hg, ho, and_assoc]

/-- C2: the filtered set computed by `applyFilters` is the full set filtered,
in order, by "every non-empty selection equals the record's attribute", the
specimen selection being the cross-filter when it is a non-empty string and
the dropdown value otherwise; with every selection empty it is the full set. -/
theorem applyFilters_filteredData (up : String → String) (st : State) :
    ∃ specimen : String,
      (specimen = match st.crossFilterSpecimen with
        | some c => if c = "" then st.specimenFilter.value else c
        | none => st.specimenFilter.value) ∧
      (applyFilters up st).filteredData =
        st.fullData.filter (fun d => decide
          ((specimen = "" ∨ d.Specimen_Type = specimen) ∧
           (st.genderFilter.value = "" ∨ d.Gender = some st.genderFilter.value) ∧
           (st.outcomeFilter.value = "" ∨ d.Outcome = st.outcomeFilter.value))) ∧
      (specimen = "" → st.genderFilter.value = "" → st.outcomeFilter.value = "" →
        (applyFilters up st).filteredData = st.fullData) := by
  refine ⟨finalSpecimenFilter st.crossFilterSpecimen st.specimenFilter.value, ?_, ?_, ?_⟩
  · unfold finalSpecimenFilter orDefault
    cases st.crossFilterSpecimen with
    | none => rfl
    | some c => by_cases hc : c = "" <;> simp [hc]
  · unfold applyFilters
    rw [renderDashboard_filteredData]
    apply List.filter_congr
    intro d _
    rw [Bool.eq_iff_iff, matchesFilters_iff]
    simp
  · intro hs hg ho
    unfold applyFilters
    rw [renderDashboard_filteredData]
    simp only [hs, hg, ho]
    apply List.filter_eq_self.mpr
    intro d _
    simp [matchesFilters]

theorem applyFilters_filteredData_witness :
    (applyFilters toUpperCase (onDataLoaded toUpperCase sampleRows)).filteredData =
      (onDataLoaded toUpperCase sampleRows).fullData := by
  obtain ⟨specimen, hspec, -, hall⟩ :=
    applyFilters_filteredData toUpperCase (onDataLoaded toUpperCase sampleRows)
  exact hall hspec rfl rfl

/-! ### Age coercion -/

/-- C3 (what the code does on a blank age): the raw `Age` text `""`, which is
not a number, is stored as the number `0` and not as an absent age; so is a
text of blanks only. -/
theorem normalize_age_blank (up : String → String) (d : RawRow) :
    (normalize up { d with Age := some "" }).Age = some (JSNumber.finite 0) ∧
    (normalize up { d with Age := some "  " }).Age = some (JSNumber.finite 0) := by
  constructor <;> rfl

/-! ### Cross-filter toggle -/

theorem handleCrossFilter_cross (up : String → String) (s : String) (st : State) :
    (handleCrossFilter up s st).crossFilterSpecimen =
      if st.crossFilterSpecimen = some s then none else some s := rfl

theorem handleCrossFilter_specimen_value (up : String → String) (s : String) (st : State) :
    (handleCrossFilter up s st).specimenFilter.value =
      if st.specimenFilter.options.any (fun o => o.value ==
          orDefault (if st.crossFilterSpecimen = some s then none else some s) "")
      then orDefault (if st.crossFilterSpecimen = some s then none else some s) ""
      else "" := by
  simp [handleCrossFilter, applyFilters, renderDashboard, Select.setValue, finalSpecimenFilter]

theorem handleCrossFilter_options (up : String → String) (s : String) (st : State) :
    (handleCrossFilter up s st).specimenFilter.options = st.specimenFilter.options := rfl

theorem effective_after_toggle (up : String → String) (s : String) (st : State) :
    effectiveSpecimenFilter (handleCrossFilter up s st) =
      if st.crossFilterSpecimen = some s then "" else s := by
  unfold effectiveSpecimenFilter finalSpecimenFilter
  rw [handleCrossFilter_cross, handleCrossFilter_specimen_value]
  by_cases hc : st.crossFilterSpecimen = some s
  · simp [hc, orDefault]
  · by_cases hs : s = ""
    · subst hs
      simp [hc, orDefault]
    · simp [hc, hs, orDefault]

theorem effective_after_two_toggles (up : String → String) (s : String) (st : State) :
    effectiveSpecimenFilter (handleCrossFilter up s (handleCrossFilter up s st)) =
      if st.crossFilterSpecimen = some s then s else "" := by
  rw [effective_after_toggle, handleCrossFilter_cross]
  by_cases hc : st.crossFilterSpecimen = some s <;> simp [hc]

/-- C4 (as stated, refuted): with `Blood` picked in the specimen dropdown and
no cross-filter, the effective specimen filter is `Blood`; after two calls of
`handleCrossFilter("Urine")` it is empty. -/
theorem toggle_twice_counterexample :
    effectiveSpecimenFilter sampleState = "Blood" ∧
    effectiveSpecimenFilter
      (handleCrossFilter toUpperCase "Urine"
        (handleCrossFilter toUpperCase "Urine" sampleState)) = "" := by
  constructor
  · decide
  · rw [effective_after_two_toggles]
    decide

/-- C4 (amended): after two calls of `handleCrossFilter(s)` the effective
specimen filter is `s` if the cross-filter was `s` before the first call and
empty otherwise; so it is back at its prior value exactly when that value was
empty or the cross-filter was already the non-empty `s`. -/
theorem toggle_twice_effective (up : String → String) (s : String) (st : State) :
    effectiveSpecimenFilter (handleCrossFilter up s (handleCrossFilter up s st)) =
      (if st.crossFilterSpecimen = some s then s else "") ∧
    (effectiveSpecimenFilter (handleCrossFilter up s (handleCrossFilter up s st)) =
        effectiveSpecimenFilter st ↔
      (effectiveSpecimenFilter st = "" ∨ (st.crossFilterSpecimen = some s ∧ s ≠ ""))) := by
  refine ⟨effective_after_two_toggles up s st, ?_⟩
  rw [effective_after_two_toggles]
  unfold effectiveSpecimenFilter finalSpecimenFilter orDefault
  by_cases hc : st.crossFilterSpecimen = some s
  · by_cases hs : s = ""
    · simp [hc, hs, eq_comm]
    · simp [hc, hs]
  · simp only [hc, if_false, false_and, or_false]
    exact eq_comm

/-! ### Chart descriptions -/

theorem handleEmptyChart_isEmptyPlaceholder (chartId title : String) :
    IsEmptyPlaceholder (handleEmptyChart chartId title) :=
  ⟨chartId, title, 350, rfl⟩

theorem calculateResistanceRates_length (up : String → String) (data : List Record)
    (h : data.length ≠ 0) : (calculateResistanceRates up data).length = 5 := by
  simp [calculateResistanceRates, h, ANTIBIOTIC_COLS]

theorem heatmap_cases (up : String → String) (data : List Record) (c : Option String) :
    IsEmptyPlaceholder (renderAntibiogramHeatmap up data c) ∨
      DrawsCategories (renderAntibiogramHeatmap up data c) := by
  unfold renderAntibiogramHeatmap
  by_cases h : data.length = 0
  · left
    simp only [h, if_true]
    exact handleEmptyChart_isEmptyPlaceholder _ _
  · right
    simp only [h, if_false]
    refine ⟨_, _, _, [], rfl, by simp, ?_, by simp⟩
    intro t ht
    rw [List.mem_singleton] at ht
    subst ht
    simp [HasCategories, calculateResistanceRates_length up data h]

theorem pie_cases (data : List Record) (c : Option String) :
    IsEmptyPlaceholder (renderSpecimenPieChart data c) ∨
      DrawsCategories (renderSpecimenPieChart data c) := by
  unfold renderSpecimenPieChart
  simp only
  split
  · left
    exact handleEmptyChart_isEmptyPlaceholder _ _
  · right
    rename_i h
    refine ⟨_, _, _, [Effect.onClick "specimen-pie-chart"], rfl, by simp, ?_, ?_⟩
    · intro t ht
      rw [List.mem_singleton] at ht
      subst ht
      simp only [HasCategories, List.length_map, List.enum_length, and_self, and_true]
      simp only [List.length_map] at h
      omega
    · intro e he
      rw [List.mem_singleton] at he
      exact ⟨_, he⟩

theorem bar_cases (data : List Record) :
    IsEmptyPlaceholder (renderOutcomeBarChart data) ∨
      DrawsCategories (renderOutcomeBarChart data) := by
  unfold renderOutcomeBarChart
  simp only
  split
  · left
    exact handleEmptyChart_isEmptyPlaceholder _ _
  · right
    rename_i h
    refine ⟨_, _, _, [], rfl, by simp, ?_, by simp⟩
    intro t ht
    simp only [List.mem_cons, List.mem_singleton, List.not_mem_nil, or_false] at ht
    rcases ht with ht | ht <;> subst ht <;>
      simp only [HasCategories, List.length_map, and_true] <;> omega

theorem ageBoxes_hasCategories (cleanData : List Record) (outcomes : List String) :
    ∀ t ∈ ageBoxes cleanData outcomes, HasCategories t := by
  intro t ht
  unfold ageBoxes at ht
  rw [List.mem_filterMap] at ht
  obtain ⟨outcome, -, hsome⟩ := ht
  simp only at hsome
  split at hsome
  · rename_i hpos
    cases hsome
    simpa [HasCategories] using hpos
  · cases hsome

theorem box_cases (data : List Record) :
    IsEmptyPlaceholder (renderAgeBoxPlot data) ∨ DrawsCategories (renderAgeBoxPlot data) := by
  unfold renderAgeBoxPlot
  simp only
  split
  · left
    exact handleEmptyChart_isEmptyPlaceholder _ _
  · split
    · left
      exact handleEmptyChart_isEmptyPlaceholder _ _
    · right
      rename_i h
      refine ⟨_, _, _, [], rfl, ?_, ageBoxes_hasCategories _ _, by simp⟩
      intro hnil
      exact h (by rw [hnil]; rfl)

/-- C5: each of the four chart renderers either emits the empty placeholder
(no data series, the fixed annotation) or hands the plotting library series
whose category arrays have at least one entry; on the empty filtered set all
four emit the empty placeholder. -/
theorem charts_placeholder_or_categories (up : String → String) (data : List Record)
    (c : Option String) :
    (IsEmptyPlaceholder (renderAntibiogramHeatmap up data c) ∨
      DrawsCategories (renderAntibiogramHeatmap up data c)) ∧
    (IsEmptyPlaceholder (renderSpecimenPieChart data c) ∨
      DrawsCategories (renderSpecimenPieChart data c)) ∧
    (IsEmptyPlaceholder (renderOutcomeBarChart data) ∨
      DrawsCategories (renderOutcomeBarChart data)) ∧
    (IsEmptyPlaceholder (renderAgeBoxPlot data) ∨ DrawsCategories (renderAgeBoxPlot data)) ∧
    IsEmptyPlaceholder (renderAntibiogramHeatmap up [] c) ∧
    IsEmptyPlaceholder (renderSpecimenPieChart [] c) ∧
    IsEmptyPlaceholder (renderOutcomeBarChart []) ∧
    IsEmptyPlaceholder (renderAgeBoxPlot []) :=
  ⟨heatmap_cases up data c, pie_cases data c, bar_cases data, box_cases data,
    handleEmptyChart_isEmptyPlaceholder _ _, handleEmptyChart_isEmptyPlaceholder _ _,
    handleEmptyChart_isEmptyPlaceholder _ _, handleEmptyChart_isEmptyPlaceholder _ _⟩

/-! ### Filter controls -/

theorem newSet_foldl_mem {α : Type} [DecidableEq α] (xs acc : List α) (x : α) :
    x ∈ xs.foldl (fun seen y => if y ∈ seen then seen else seen ++ [y]) acc ↔
      x ∈ acc ∨ x ∈ xs := by
  induction xs generalizing acc with
  | nil => simp
  | cons y ys ih =>
    rw [List.foldl_cons, ih]
    by_cases hy : y ∈ acc
    · simp only [hy, if_true, List.mem_cons]
      constructor
      · rintro (h | h)
        · exact Or.inl h
        · exact Or.inr (Or.inr h)
      · rintro (h | h | h)
        · exact Or.inl h
        · exact Or.inl (h ▸ hy)
        · exact Or.inr h
    · simp only [hy, if_false, List.mem_append, List.mem_singleton, List.mem_cons]
      tauto

theorem newSet_foldl_nodup {α : Type} [DecidableEq α] (xs acc : List α) (h : acc.Nodup) :
    (xs.foldl (fun seen y => if y ∈ seen then seen else seen ++ [y]) acc).Nodup := by
  induction xs generalizing acc with
  | nil => simpa using h
  | cons y ys ih =>
    rw [List.foldl_cons]
    apply ih
    by_cases hy : y ∈ acc
    · simpa [hy] using h
    · simp only [hy, if_false]
      rw [List.nodup_append]
      refine ⟨h, List.nodup_singleton y, ?_⟩
      intro a ha hb
      rw [List.mem_singleton] at hb
      exact hy (hb ▸ ha)

theorem mem_newSet {α : Type} [DecidableEq α] (xs : List α) (x : α) :
    x ∈ newSet xs ↔ x ∈ xs := by
  simp [newSet, newSet_foldl_mem]

theorem nodup_newSet {α : Type} [DecidableEq α] (xs : List α) : (newSet xs).Nodup :=
  newSet_foldl_nodup xs [] List.nodup_nil

theorem codeUnitsLe_total (a b : List Nat) :
    codeUnitsLe a b = true ∨ codeUnitsLe b a = true := by
  induction a generalizing b with
  | nil => simp [codeUnitsLe]
  | cons x xs ih =>
    cases b with
    | nil => simp [codeUnitsLe]
    | cons y ys =>
      simp only [codeUnitsLe, Bool.or_eq_true, Bool.and_eq_true, decide_eq_true_eq,
        beq_iff_eq]
      rcases Nat.lt_trichotomy x y with h | h | h
      · exact Or.inl (Or.inl h)
      · rcases ih ys with h' | h'
        · exact Or.inl (Or.inr ⟨h, h'⟩)
        · exact Or.inr (Or.inr ⟨h.symm, h'⟩)
      · exact Or.inr (Or.inl h)

theorem codeUnitsLe_trans (a b c : List Nat) (hab : codeUnitsLe a b = true)
    (hbc : codeUnitsLe b c = true) : codeUnitsLe a c = true := by
  induction a generalizing b c with
  | nil => simp [codeUnitsLe]
  | cons x xs ih =>
    cases b with
    | nil => simp [codeUnitsLe] at hab
    | cons y ys =>
      cases c with
      | nil => simp [codeUnitsLe] at hbc
      | cons z zs =>
        simp only [codeUnitsLe, Bool.or_eq_true, Bool.and_eq_true, decide_eq_true_eq,
          beq_iff_eq] at hab hbc ⊢
        rcases hab with h1 | ⟨h1, h1'⟩ <;> rcases hbc with h2 | ⟨h2, h2'⟩
        · exact Or.inl (Nat.lt_trans h1 h2)
        · exact Or.inl (h2 ▸ h1)
        · exact Or.inl (h1 ▸ h2)
        · exact Or.inr ⟨h1.trans h2, ih ys zs h1' h2'⟩

theorem sort_sorted (xs : List String) : (sort xs).Sorted jsLe := by
  haveI : IsTotal String jsLe :=
    ⟨fun a b => codeUnitsLe_total (codeUnits a) (codeUnits b)⟩
  haveI : IsTrans String jsLe :=
    ⟨fun a b c => codeUnitsLe_trans (codeUnits a) (codeUnits b) (codeUnits c)⟩
  exact List.sorted_insertionSort jsLe xs

theorem mem_sort (xs : List String) (x : String) : x ∈ sort xs ↔ x ∈ xs :=
  List.mem_insertionSort jsLe

theorem nodup_sort (xs : List String) (h : xs.Nodup) : (sort xs).Nodup :=
  (List.perm_insertionSort jsLe xs).nodup_iff.mpr h

theorem mem_specimenTypes (fullData : List Record) (v : String) :
    v ∈ specimenTypes fullData ↔
      (∃ d ∈ fullData, d.Specimen_Type = v) ∧ v ≠ "" ∧ v ≠ "Unknown" := by
  simp [specimenTypes, mem_sort, mem_newSet]

theorem mem_outcomes (fullData : List Record) (v : String) :
    v ∈ outcomes fullData ↔ (∃ d ∈ fullData, d.Outcome = v) ∧ v ≠ "" ∧ v ≠ "Unknown" := by
  simp [outcomes, mem_sort, mem_newSet]

theorem mem_genders (fullData : List Record) (v : String) :
    v ∈ genders fullData ↔ (∃ d ∈ fullData, d.Gender = some v) ∧ v ≠ "" := by
  simp only [genders, mem_sort, List.mem_filterMap, mem_newSet, List.mem_map]
  constructor
  · rintro ⟨g, ⟨d, hd, hg⟩, hv⟩
    cases g with
    | none => simp [truthy] at hv
    | some w =>
      by_cases hw : w = ""
      · simp [truthy, hw] at hv
      · simp only [truthy, bne_iff_ne, ne_eq, hw, not_false_eq_true, if_true,
          Option.some.injEq] at hv
        subst hv
        exact ⟨⟨d, hd, hg⟩, hw⟩
  · rintro ⟨⟨d, hd, hg⟩, hv⟩
    exact ⟨some v, ⟨d, hd, hg⟩, by simp [truthy, hv]⟩

theorem nodup_genders (fullData : List Record) : (genders fullData).Nodup := by
  apply nodup_sort
  apply List.Nodup.filterMap _ (nodup_newSet _)
  intro a a' b ha ha'
  cases a with
  | none => simp [truthy] at ha
  | some w =>
    cases a' with
    | none => simp [truthy] at ha'
    | some w' =>
      by_cases hw : w = "" <;> by_cases hw' : w' = "" <;>
        simp [truthy, hw, hw'] at ha ha'
      rw [ha, ha']

/-- C6 (as stated, refuted): a record whose `Gender` is the text `Unknown`
puts the option `Unknown` into the gender control. -/
theorem setupFilters_gender_unknown :
    "Unknown" ∈ (setupFilters (onDataLoaded toUpperCase sampleRows)).genderFilter.options.map
      (fun o => o.value) := by
  decide

/-- C6 (amended): `setupFilters` fills each control with the `All` option of
empty value followed by the distinct values of the attribute in the full
record set, sorted ascending and without the empty value; `Unknown` is left
out of the specimen and the outcome list, the gender list keeps it. -/
theorem setupFilters_options (st : State) :
    ∃ sp ge ou : List String,
      (setupFilters st).specimenFilter.options =
        { value := "", text := "All" } :: sp.map (fun v => { value := v, text := v }) ∧
      (setupFilters st).genderFilter.options =
        { value := "", text := "All" } :: ge.map (fun v => { value := v, text := v }) ∧
      (setupFilters st).outcomeFilter.options =
        { value := "", text := "All" } :: ou.map (fun v => { value := v, text := v }) ∧
      (sp.Sorted jsLe ∧ sp.Nodup ∧ ∀ v, v ∈ sp ↔
        (∃ d ∈ st.fullData, d.Specimen_Type = v) ∧ v ≠ "" ∧ v ≠ "Unknown") ∧
      (ge.Sorted jsLe ∧ ge.Nodup ∧ ∀ v, v ∈ ge ↔
        (∃ d ∈ st.fullData, d.Gender = some v) ∧ v ≠ "") ∧
      (ou.Sorted jsLe ∧ ou.Nodup ∧ ∀ v, v ∈ ou ↔
        (∃ d ∈ st.fullData, d.Outcome = v) ∧ v ≠ "" ∧ v ≠ "Unknown") := by
  refine ⟨specimenTypes st.fullData, genders st.fullData, outcomes st.fullData,
    rfl, rfl, rfl, ⟨?_, ?_, mem_specimenTypes _⟩, ⟨?_, nodup_genders _, mem_genders _⟩,
    ⟨?_, ?_, mem_outcomes _⟩⟩
  · exact sort_sorted _
  · exact nodup_sort _ ((nodup_newSet _).filter _)
  · exact sort_sorted _
  · exact sort_sorted _
  · exact nodup_sort _ ((nodup_newSet _).filter _)

/-! ### The normaliser -/

theorem orDefault_eq (v : Option String) (dflt : String) :
    orDefault v dflt =
      match v with
      | some s => if s = "" then dflt else s
      | none => dflt := by
  cases v with
  | none => rfl
  | some s => by_cases hs : s = "" <;> simp [orDefault, hs]

theorem orDefault_ne_empty (v : Option String) (dflt : String) (h : dflt ≠ "") :
    orDefault v dflt ≠ "" := by
  rw [orDefault_eq]
  cases v with
  | none => exact h
  | some s => by_cases hs : s = "" <;> simp [hs, h]

theorem truthy_iff (v : Option String) : truthy v = true ↔ ∃ s, v = some s ∧ s ≠ "" := by
  cases v with
  | none => simp [truthy]
  | some s => simp [truthy]

/-- C7: the full record set is the normalised rows whose `Patient_ID` is
present and non-empty, in order and with no other row dropped; every record of
it has a non-empty `Patient_ID`, and its `Specimen_Type` and `Outcome` are
never empty: a missing or empty value becomes `Unknown`, any other is kept. -/
theorem loadData_invariant (up : String → String) (data : List RawRow) :
    loadData up data =
      (data.filter (fun d => d.Patient_ID.isSome && d.Patient_ID != some "")).map
        (normalize up) ∧
    (∀ r ∈ loadData up data,
      (∃ p, r.Patient_ID = some p ∧ p ≠ "") ∧ r.Specimen_Type ≠ "" ∧ r.Outcome ≠ "") ∧
    (∀ d : RawRow, (normalize up d).Specimen_Type =
      match d.Specimen_Type with
      | some s => if s = "" then "Unknown" else s
      | none => "Unknown") ∧
    (∀ d : RawRow, (normalize up d).Outcome =
      match d.Outcome with
      | some s => if s = "" then "Unknown" else s
      | none => "Unknown") := by
  refine ⟨?_, ?_, fun d => orDefault_eq _ _, fun d => orDefault_eq _ _⟩
  · unfold loadData
    rw [List.filter_map]
    congr 1
    apply List.filter_congr
    intro d _
    cases h : d.Patient_ID with
    | none => simp [normalize, truthy, h]
    | some p =>
      rw [Bool.eq_iff_iff]
      simp [normalize, truthy, h]
  · intro r hr
    unfold loadData at hr
    rw [List.mem_filter, List.mem_map] at hr
    obtain ⟨⟨d, -, rfl⟩, hp⟩ := hr
    exact ⟨(truthy_iff _).mp hp, orDefault_ne_empty _ _ (by decide),
      orDefault_ne_empty _ _ (by decide)⟩

/-- C8: `isMDRO` is true exactly when the upper-cased genes text (the literal
`None` for an absent or empty field) contains one of the upper-cased markers
KPC, OXA-48, NDM-1, VIM; an absent or empty field gives false, and the text
`ndm-1 positive` gives true. -/
theorem isMDRO_iff (up : String → String) (d : RawRow) :
    ((normalize up d).isMDRO = true ↔
      ∃ gene ∈ MDRO_GENES, (up gene).data <:+:
        (up (match d.Resistance_Genes with
          | some s => if s = "" then "None" else s
          | none => "None")).data) ∧
    (normalize toUpperCase { d with Resistance_Genes := none }).isMDRO = false ∧
    (normalize toUpperCase { d with Resistance_Genes := some "" }).isMDRO = false ∧
    (normalize toUpperCase { d with Resistance_Genes := some "ndm-1 positive" }).isMDRO
      = true := by
  refine ⟨?_, rfl, rfl, rfl⟩
  simp only [normalize, isMDRO, orDefault_eq, List.any_eq_true, includes, decide_eq_true_eq]

theorem isResistantOrIntermediate_iff (up : String → String) (cell : Option String) :
    isResistantOrIntermediate up cell = true ↔ MarksResistance up cell := by
  unfold isResistantOrIntermediate MarksResistance
  cases cell with
  | none => simp
  | some r => simp

/-- C9: `hasAnyResistance` is the boolean true exactly when one of the five
antibiotic fields (Amoxicillin, Ciprofloxacin, Meropenem, Vancomycin,
Colistin) is present, non-empty and upper-cases to `RESISTANT` or
`INTERMEDIATE`, and false otherwise; with all five fields absent it is false,
a single such result in any one of the five columns makes it true, and a
susceptible or empty result does not. -/
theorem hasAnyResistance_iff (up : String → String) (d : RawRow) :
    ((normalize up d).hasAnyResistance = true ↔
      MarksResistance up d.Amoxicillin ∨ MarksResistance up d.Ciprofloxacin ∨
      MarksResistance up d.Meropenem ∨ MarksResistance up d.Vancomycin ∨
      MarksResistance up d.Colistin) ∧
    ((normalize up d).hasAnyResistance = false ↔
      ¬ (MarksResistance up d.Amoxicillin ∨ MarksResistance up d.Ciprofloxacin ∨
        MarksResistance up d.Meropenem ∨ MarksResistance up d.Vancomycin ∨
        MarksResistance up d.Colistin)) ∧
    (normalize up { d with
      Amoxicillin := none, Ciprofloxacin := none, Meropenem := none,
      Vancomycin := none, Colistin := none }).hasAnyResistance = false ∧
    (normalize toUpperCase { blankRow with Amoxicillin := some "Resistant" }).hasAnyResistance
      = true ∧
    (normalize toUpperCase { blankRow with Ciprofloxacin := some "intermediate" }).hasAnyResistance
      = true ∧
    (normalize toUpperCase { blankRow with Meropenem := some "RESISTANT" }).hasAnyResistance
      = true ∧
    (normalize toUpperCase { blankRow with Vancomycin := some "Intermediate" }).hasAnyResistance
      = true ∧
    (normalize toUpperCase { blankRow with Colistin := some "resistant" }).hasAnyResistance
      = true ∧
    (normalize toUpperCase { blankRow with
      Amoxicillin := some "Susceptible", Ciprofloxacin := some "",
      Meropenem := some "Resistant to none" }).hasAnyResistance = false := by
  have key : (normalize up d).hasAnyResistance = true ↔
      MarksResistance up d.Amoxicillin ∨ MarksResistance up d.Ciprofloxacin ∨
      MarksResistance up d.Meropenem ∨ MarksResistance up d.Vancomycin ∨
      MarksResistance up d.Colistin := by
    simp only [normalize, hasAnyResistance, ANTIBIOTIC_COLS, List.any_cons, List.any_nil,
      Bool.or_false, Bool.or_eq_true, isResistantOrIntermediate_iff]
    have h1 : d.get "Amoxicillin" = d.Amoxicillin := rfl
    have h2 : d.get "Ciprofloxacin" = d.Ciprofloxacin := rfl
    have h3 : d.get "Meropenem" = d.Meropenem := rfl
    have h4 : d.get "Vancomycin" = d.Vancomycin := rfl
    have h5 : d.get "Colistin" = d.Colistin := rfl
    rw [h1, h2, h3, h4, h5]
  refine ⟨key, ?_, rfl, by decide, by decide, by decide, by decide, by decide, by decide⟩
  rw [← key]
  simp

/-! ### KPI totals -/

theorem toFixed_zero : toFixed 2 0 = "0.00" := by
  have hfloor : Int.floor (|(0 : ℚ)| * (10 : ℚ) ^ 2 + 1 / 2) = 0 := by
    rw [Int.floor_eq_iff]
    constructor <;> norm_num
  have hsign : ¬ ((0 : ℚ) < 0) := by norm_num
  unfold toFixed
  rw [hfloor]
  simp only [hsign, if_false]
  decide

theorem avgResistanceRate_cons (up : String → String) (d : Record) (ds : List Record) :
    avgResistanceRate up (d :: ds) =
      jsDiv (((calculateResistanceRates up (d :: ds)).map Prod.snd).foldl jsAdd 0) 5 := by
  have hlen : (calculateResistanceRates up (d :: ds)).length = 5 :=
    calculateResistanceRates_length up (d :: ds) (by simp)
  simp only [avgResistanceRate, List.length_map, hlen]
  norm_num

theorem roundDouble_kpiRate :
    roundDouble (8092405580431359 / 562949953421312) = 8092405580431359 / 562949953421312 := by
  rw [roundDouble_eq _ 3 8092405580431359 (by norm_num) (by norm_num)
    (by rw [abs_lt]; constructor <;> norm_num)]
  norm_num

theorem jsDiv_kpiRate_5 :
    jsDiv (8092405580431359 / 562949953421312) 5 = 6473924464345087 / 2251799813685248 := by
  unfold jsDiv
  rw [roundDouble_eq _ 1 6473924464345087 (by norm_num) (by norm_num)
    (by rw [abs_lt]; constructor <;> norm_num)]
  norm_num

theorem kpiSample_avg :
    avgResistanceRate toUpperCase (loadData toUpperCase kpiSampleRows) =
      6473924464345087 / 2251799813685248 := by
  simp only [avgResistanceRate, kpiSample_rates, List.map_cons, List.map_nil, List.foldl_cons,
    List.foldl_nil, List.length_cons, List.length_nil, jsAdd, zero_add, add_zero,
    roundDouble_kpiRate]
  norm_num [jsDiv_kpiRate_5]

theorem toFixed_kpiSample : toFixed 2 (6473924464345087 / 2251799813685248) = "2.87" := by
  have hfloor : Int.floor (|(6473924464345087 / 2251799813685248 : ℚ)| * (10 : ℚ) ^ 2 + 1 / 2)
      = 287 := by
    rw [Int.floor_eq_iff]
    constructor <;> norm_num [abs_of_pos]
  have hsign : ¬ ((6473924464345087 / 2251799813685248 : ℚ) < 0) := by norm_num
  unfold toFixed
  rw [hfloor]
  simp only [hsign, if_false]
  decide

/-- C10: `updateKPIs` writes the number of filtered records as the total; for
the empty set the rate `0.00%` and the MDRO count `0`; otherwise the sum of
the five rates of `calculateResistanceRates` (one per antibiotic, from the
column of that name, `0` for an antibiotic with no tested record) divided by
five, in the program's double arithmetic and shown with two decimals, and the
number of records whose `isMDRO` is true.  On 23 resistant and 137 susceptible
Amoxicillin results it writes `160`, `2.87%` and `23`. -/
theorem updateKPIs_eq (up : String → String) (data : List Record) :
    updateKPIs up data =
      [Effect.setText "kpi-total" (toString data.length),
       Effect.setText "kpi-resistance-rate"
         (toFixed 2 (if data.length = 0 then 0
           else jsDiv (((calculateResistanceRates up data).map Prod.snd).foldl jsAdd 0) 5)
           ++ "%"),
       Effect.setText "kpi-mdro-count"
         (toString (if data.length = 0 then 0
           else (data.filter (fun d => d.isMDRO)).length))] ∧
    (∀ (d : Record) (ds : List Record), calculateResistanceRates up (d :: ds) =
      [("Amoxicillin", columnRateSpec up ((d :: ds).map (fun r => r.Amoxicillin))),
       ("Ciprofloxacin", columnRateSpec up ((d :: ds).map (fun r => r.Ciprofloxacin))),
       ("Meropenem", columnRateSpec up ((d :: ds).map (fun r => r.Meropenem))),
       ("Vancomycin", columnRateSpec up ((d :: ds).map (fun r => r.Vancomycin))),
       ("Colistin", columnRateSpec up ((d :: ds).map (fun r => r.Colistin)))]) ∧
    updateKPIs toUpperCase (loadData toUpperCase kpiSampleRows) =
      [Effect.setText "kpi-total" "160",
       Effect.setText "kpi-resistance-rate" "2.87%",
       Effect.setText "kpi-mdro-count" "23"] := by
  refine ⟨?_, fun d ds => calculateResistanceRates_cons up d ds, ?_⟩
  · cases data with
    | nil =>
      simp only [updateKPIs, List.length_nil, if_true, toFixed_zero]
      rfl
    | cons d ds =>
      simp only [updateKPIs, List.length_cons, Nat.succ_ne_zero, if_false,
        avgResistanceRate_cons]
  · have hlen : (loadData toUpperCase kpiSampleRows).length ≠ 0 := by
      rw [kpiSample_counts.1]
      decide
    simp only [updateKPIs, hlen, if_false, kpiSample_avg, toFixed_kpiSample,
      kpiSample_counts.1, kpiSample_counts.2]
    decide

/-! ### Reset -/

theorem setValue_empty (sel : Select) : (sel.setValue "").value = "" := by
  simp [Select.setValue]

theorem filter_matchesFilters_empty (data : List Record) :
    data.filter (matchesFilters "" "" "") = data := by
  apply List.filter_eq_self.mpr
  intro d _
  simp [matchesFilters]

theorem resetFilters_fields (up : String → String) (st : State) :
    (resetFilters up st).specimenFilter.value = "" ∧
    (resetFilters up st).genderFilter.value = "" ∧
    (resetFilters up st).outcomeFilter.value = "" ∧
    (resetFilters up st).crossFilterSpecimen = none ∧
    (resetFilters up st).filteredData = st.fullData := by
  simp only [resetFilters, applyFilters, renderDashboard, finalSpecimenFilter, orDefault,
    setValue_empty, filter_matchesFilters_empty]
  simp [Select.setValue]

/-- C11: after `resetFilters`, from any filter state, the specimen, gender and
outcome selections are empty, the cross-filter is cleared and the filtered set
is the full record set; so it is after the gender filter was set to `F`, a
value of the sample data that had narrowed the filtered set to one record. -/
theorem resetFilters_restores (up : String → String) (st : State) :
    ((resetFilters up st).specimenFilter.value = "" ∧
     (resetFilters up st).genderFilter.value = "" ∧
     (resetFilters up st).outcomeFilter.value = "" ∧
     (resetFilters up st).crossFilterSpecimen = none ∧
     (resetFilters up st).filteredData = st.fullData ∧
     (resetFilters up st).fullData = st.fullData) ∧
    (genderPickedState.genderFilter.value = "F" ∧
     genderPickedState.fullData.length = 3 ∧
     genderPickedState.filteredData.length = 1 ∧
     (resetFilters toUpperCase genderPickedState).genderFilter.value = "" ∧
     (resetFilters toUpperCase genderPickedState).filteredData =
       genderPickedState.fullData) := by
  obtain ⟨h1, h2, h3, h4, h5⟩ := resetFilters_fields up st
  refine ⟨⟨h1, h2, h3, h4, h5, rfl⟩, ?_, ?_, ?_, ?_, ?_⟩
  · decide
  · decide
  · decide
  · exact (resetFilters_fields toUpperCase genderPickedState).2.1
  · exact (resetFilters_fields toUpperCase genderPickedState).2.2.2.2

/-! ### The pipeline of a filter mutation -/

theorem applyFilters_runsPipeline (up : String → String) (st : State) :
    RunsPipeline up st (applyFilters up st) :=
  ⟨rfl, ⟨_, _, _, rfl⟩, rfl⟩

theorem updateKPIs_ids (up : String → String) (data : List Record) :
    plotIds (updateKPIs up data) = [] ∧
    textIds (updateKPIs up data) = ["kpi-total", "kpi-resistance-rate", "kpi-mdro-count"] := by
  unfold updateKPIs
  simp only
  split <;> exact ⟨rfl, rfl⟩

theorem heatmap_ids (up : String → String) (data : List Record) (c : Option String) :
    plotIds (renderAntibiogramHeatmap up data c) = ["antibiogram-heatmap"] ∧
    textIds (renderAntibiogramHeatmap up data c) = [] := by
  unfold renderAntibiogramHeatmap
  split <;> exact ⟨rfl, rfl⟩

theorem pie_ids (data : List Record) (c : Option String) :
    plotIds (renderSpecimenPieChart data c) = ["specimen-pie-chart"] ∧
    textIds (renderSpecimenPieChart data c) = [] := by
  unfold renderSpecimenPieChart
  simp only
  split <;> exact ⟨rfl, rfl⟩

theorem bar_ids (data : List Record) :
    plotIds (renderOutcomeBarChart data) = ["outcome-stacked-bar-chart"] ∧
    textIds (renderOutcomeBarChart data) = [] := by
  unfold renderOutcomeBarChart
  simp only
  split <;> exact ⟨rfl, rfl⟩

theorem box_ids (data : List Record) :
    plotIds (renderAgeBoxPlot data) = ["age-box-plot"] ∧
    textIds (renderAgeBoxPlot data) = [] := by
  unfold renderAgeBoxPlot
  simp only
  split
  · exact ⟨rfl, rfl⟩
  · split <;> exact ⟨rfl, rfl⟩

theorem plotIds_append (xs ys : List Effect) : plotIds (xs ++ ys) = plotIds xs ++ plotIds ys := by
  simp [plotIds, List.filterMap_append]

theorem textIds_append (xs ys : List Effect) : textIds (xs ++ ys) = textIds xs ++ textIds ys := by
  simp [textIds, List.filterMap_append]

/-- C17: each entry point of a filter mutation (`applyFilters`, `resetFilters`,
`handleCrossFilter`) leaves the full record set as it was, recomputes the
filtered set from it, and then writes to the page, in this order and once
each, the KPI texts, the heatmap, the specimen pie, the outcome bar chart and
the age box plot, all of that newly computed filtered set. -/
theorem entry_points_run_pipeline (up : String → String) (s : String) (st : State) :
    (RunsPipeline up st (applyFilters up st) ∧
     RunsPipeline up st (resetFilters up st) ∧
     RunsPipeline up st (handleCrossFilter up s st)) ∧
    (∀ (data : List Record) (c : Option String),
      textIds (updateKPIs up data ++ renderAntibiogramHeatmap up data c ++
          renderSpecimenPieChart data c ++ renderOutcomeBarChart data ++
          renderAgeBoxPlot data) =
        ["kpi-total", "kpi-resistance-rate", "kpi-mdro-count"] ∧
      plotIds (updateKPIs up data ++ renderAntibiogramHeatmap up data c ++
          renderSpecimenPieChart data c ++ renderOutcomeBarChart data ++
          renderAgeBoxPlot data) =
        ["antibiogram-heatmap", "specimen-pie-chart", "outcome-stacked-bar-chart",
         "age-box-plot"]) := by
  refine ⟨⟨applyFilters_runsPipeline up st, ⟨rfl, ⟨_, _, _, rfl⟩, rfl⟩,
    ⟨rfl, ⟨_, _, _, rfl⟩, rfl⟩⟩, ?_⟩
  intro data c
  simp only [plotIds_append, textIds_append, (updateKPIs_ids up data).1,
    (updateKPIs_ids up data).2, (heatmap_ids up data c).1, (heatmap_ids up data c).2,
    (pie_ids data c).1, (pie_ids data c).2, (bar_ids data).1, (bar_ids data).2,
    (box_ids data).1, (box_ids data).2]
  exact ⟨rfl, rfl⟩

/-! ### Idempotence of `applyFilters` -/

theorem applyFilters_specimenFilter (up : String → String) (st : State) :
    (applyFilters up st).specimenFilter =
      st.specimenFilter.setValue
        (finalSpecimenFilter st.crossFilterSpecimen st.specimenFilter.value) := rfl

theorem applyFilters_filteredData_eq (up : String → String) (st : State) :
    (applyFilters up st).filteredData =
      st.fullData.filter
        (matchesFilters (finalSpecimenFilter st.crossFilterSpecimen st.specimenFilter.value)
          st.genderFilter.value st.outcomeFilter.value) := rfl

theorem final_after_setValue (c : Option String) (sel : Select) (h : sel.Valid) :
    finalSpecimenFilter c (sel.setValue (finalSpecimenFilter c sel.value)).value =
      finalSpecimenFilter c sel.value := by
  unfold finalSpecimenFilter
  rw [orDefault_eq, orDefault_eq]
  cases c with
  | some s =>
    by_cases hs : s = ""
    · subst hs
      simp only [if_true]
      rcases h with h | h
      · simp [Select.setValue, h]
      · simp [Select.setValue, h]
    · simp [hs]
  | none =>
    simp only
    rcases h with h | h
    · simp [Select.setValue, h]
    · simp [Select.setValue, h]

theorem setValue_setValue (sel : Select) (v : String) :
    (sel.setValue v).setValue v = sel.setValue v := by
  unfold Select.setValue
  by_cases h : sel.options.any (fun o => o.value == v) = true
  · simp [h]
  · simp only [h]

/-- C13: from a state whose specimen dropdown reports one of its options (or
nothing), a second run of `applyFilters` right after a first one yields the
same filtered set and leaves the same selections; and the filtered set is a
function of the full record set and the four selections alone. -/
theorem applyFilters_idempotent (up : String → String) (st : State)
    (h : st.specimenFilter.Valid) :
    (applyFilters up (applyFilters up st)).filteredData = (applyFilters up st).filteredData ∧
    (applyFilters up (applyFilters up st)).specimenFilter = (applyFilters up st).specimenFilter ∧
    (applyFilters up (applyFilters up st)).genderFilter = (applyFilters up st).genderFilter ∧
    (applyFilters up (applyFilters up st)).outcomeFilter = (applyFilters up st).outcomeFilter ∧
    (applyFilters up (applyFilters up st)).crossFilterSpecimen =
      (applyFilters up st).crossFilterSpecimen ∧
    (∀ other : State, other.fullData = st.fullData →
      other.crossFilterSpecimen = st.crossFilterSpecimen →
      other.specimenFilter.value = st.specimenFilter.value →
      other.genderFilter.value = st.genderFilter.value →
      other.outcomeFilter.value = st.outcomeFilter.value →
      (applyFilters up other).filteredData = (applyFilters up st).filteredData) := by
  have hfinal := final_after_setValue st.crossFilterSpecimen st.specimenFilter h
  refine ⟨?_, ?_, rfl, rfl, rfl, ?_⟩
  · rw [applyFilters_filteredData_eq up (applyFilters up st), applyFilters_specimenFilter]
    show st.fullData.filter (matchesFilters
      (finalSpecimenFilter st.crossFilterSpecimen _) st.genderFilter.value
        st.outcomeFilter.value) = _
    rw [hfinal]
    rfl
  · rw [applyFilters_specimenFilter up (applyFilters up st), applyFilters_specimenFilter]
    show (st.specimenFilter.setValue _).setValue
      (finalSpecimenFilter st.crossFilterSpecimen _) = _
    rw [hfinal, setValue_setValue]
  · intro other h1 h2 h3 h4 h5
    rw [applyFilters_filteredData_eq, applyFilters_filteredData_eq, h1, h2, h3, h4, h5]

theorem applyFilters_idempotent_witness :
    sampleState.specimenFilter.Valid ∧
    (applyFilters toUpperCase (applyFilters toUpperCase sampleState)).filteredData =
      (applyFilters toUpperCase sampleState).filteredData :=
  ⟨by decide, (applyFilters_idempotent toUpperCase sampleState (by decide)).1⟩

/-! ### Bounds on the rates -/

theorem isResistant_isTested (up : String → String) (a : String) (d : Record)
    (h : isResistant up a d = true) : isTested a d = true := by
  unfold isResistant at h
  unfold isTested truthy
  cases hget : d.get a with
  | none => simp [hget] at h
  | some r =>
    simp only [hget, Bool.and_eq_true] at h
    exact h.1

theorem resistant_le_tested (up : String → String) (a : String) (data : List Record) :
    (data.filter (isResistant up a)).length ≤ (data.filter (isTested a)).length :=
  (List.monotone_filter_right data (isResistant_isTested up a)).length_le

theorem cellResistant_cellTested (up : String → String) (cell : Option String)
    (h : cellResistant up cell = true) : cellTested cell = true := by
  unfold cellResistant at h
  unfold cellTested
  cases cell with
  | none => simp at h
  | some r =>
    simp only [Bool.and_eq_true] at h
    exact h.1

theorem columnRateSpec_bounds (up : String → String) (column : List (Option String)) :
    0 ≤ columnRateSpec up column ∧ columnRateSpec up column ≤ 100 := by
  unfold columnRateSpec
  simp only
  by_cases ht : (column.filter cellTested).length = 0
  · simp [ht]
  · simp only [ht, if_false]
    have hpos : (0 : ℚ) < ((column.filter cellTested).length : ℚ) := by
      exact_mod_cast Nat.pos_of_ne_zero ht
    have hle : ((column.filter (cellResistant up)).length : ℚ) ≤
        ((column.filter cellTested).length : ℚ) := by
      exact_mod_cast
        (List.monotone_filter_right column (cellResistant_cellTested up)).length_le
    have hq0 : (0 : ℚ) ≤ ((column.filter (cellResistant up)).length : ℚ) /
        ((column.filter cellTested).length : ℚ) := by positivity
    have hq1 : ((column.filter (cellResistant up)).length : ℚ) /
        ((column.filter cellTested).length : ℚ) ≤ ((1 : ℕ) : ℚ) := by
      rw [div_le_iff₀ hpos]
      simpa using hle
    unfold jsMul jsDiv
    have ha0 := roundDouble_nonneg _ hq0
    have ha1 := roundDouble_le_nat _ 1 hq0 hq1 (by norm_num)
    have hb0 : (0 : ℚ) ≤ roundDouble (((column.filter (cellResistant up)).length : ℚ) /
        ((column.filter cellTested).length : ℚ)) * 100 := by positivity
    have hb1 : roundDouble (((column.filter (cellResistant up)).length : ℚ) /
        ((column.filter cellTested).length : ℚ)) * 100 ≤ ((100 : ℕ) : ℚ) := by
      push_cast at ha1 ⊢
      linarith
    have hc1 := roundDouble_le_nat _ 100 hb0 hb1 (by norm_num)
    exact ⟨roundDouble_nonneg _ hb0, by exact_mod_cast hc1⟩

theorem jsAdd_bounds (a b : ℚ) (m n : ℕ) (ha0 : 0 ≤ a) (ha : a ≤ m) (hb0 : 0 ≤ b) (hb : b ≤ n)
    (hmn : m + n < 2 ^ 53) : 0 ≤ jsAdd a b ∧ jsAdd a b ≤ ((m + n : ℕ) : ℚ) := by
  unfold jsAdd
  have h0 : 0 ≤ a + b := add_nonneg ha0 hb0
  have h1 : a + b ≤ ((m + n : ℕ) : ℚ) := by
    push_cast
    linarith
  exact ⟨roundDouble_nonneg _ h0, roundDouble_le_nat _ (m + n) h0 h1 hmn⟩

/-- C19: the resistant count never exceeds the tested count, so each rate
returned by `calculateResistanceRates` lies between 0 and 100, and so does the
average resistance rate of `updateKPIs`. -/
theorem rates_between_0_and_100 (up : String → String) (data : List Record) :
    (∀ a : String, (tally up a data).1 ≤ (tally up a data).2) ∧
    (∀ p ∈ calculateResistanceRates up data, 0 ≤ p.2 ∧ p.2 ≤ 100) ∧
    0 ≤ avgResistanceRate up data ∧ avgResistanceRate up data ≤ 100 := by
  refine ⟨?_, ?_, ?_⟩
  · intro a
    rw [tally_eq]
    exact resistant_le_tested up a data
  · intro p hp
    cases data with
    | nil => simp [calculateResistanceRates] at hp
    | cons d ds =>
      rw [calculateResistanceRates_cons] at hp
      simp only [resistanceRatesSpec, List.mem_cons, List.mem_singleton, List.not_mem_nil,
        or_false] at hp
      rcases hp with h | h | h | h | h <;> rw [h] <;> exact columnRateSpec_bounds up _
  · cases data with
    | nil => simp [avgResistanceRate, calculateResistanceRates]
    | cons d ds =>
      rw [avgResistanceRate_cons, calculateResistanceRates_cons]
      simp only [resistanceRatesSpec, List.map_cons, List.map_nil, List.foldl_cons,
        List.foldl_nil]
      have h1 := columnRateSpec_bounds up ((d :: ds).map (fun r => r.Amoxicillin))
      have h2 := columnRateSpec_bounds up ((d :: ds).map (fun r => r.Ciprofloxacin))
      have h3 := columnRateSpec_bounds up ((d :: ds).map (fun r => r.Meropenem))
      have h4 := columnRateSpec_bounds up ((d :: ds).map (fun r => r.Vancomycin))
      have h5 := columnRateSpec_bounds up ((d :: ds).map (fun r => r.Colistin))
      have s1 := jsAdd_bounds 0 _ 0 100 le_rfl (by norm_num) h1.1
        (by exact_mod_cast h1.2) (by norm_num)
      have s2 := jsAdd_bounds _ _ (0 + 100) 100 s1.1 s1.2 h2.1
        (by exact_mod_cast h2.2) (by norm_num)
      have s3 := jsAdd_bounds _ _ (0 + 100 + 100) 100 s2.1 s2.2 h3.1
        (by exact_mod_cast h3.2) (by norm_num)
      have s4 := jsAdd_bounds _ _ (0 + 100 + 100 + 100) 100 s3.1 s3.2 h4.1
        (by exact_mod_cast h4.2) (by norm_num)
      have s5 := jsAdd_bounds _ _ (0 + 100 + 100 + 100 + 100) 100 s4.1 s4.2 h5.1
        (by exact_mod_cast h5.2) (by norm_num)
      unfold jsDiv
      have hd0 : (0 : ℚ) ≤ jsAdd (jsAdd (jsAdd (jsAdd (jsAdd 0
          (columnRateSpec up ((d :: ds).map (fun r => r.Amoxicillin))))
          (columnRateSpec up ((d :: ds).map (fun r => r.Ciprofloxacin))))
          (columnRateSpec up ((d :: ds).map (fun r => r.Meropenem))))
          (columnRateSpec up ((d :: ds).map (fun r => r.Vancomycin))))
          (columnRateSpec up ((d :: ds).map (fun r => r.Colistin))) / 5 :=
        div_nonneg s5.1 (by norm_num)
      have hd1 : jsAdd (jsAdd (jsAdd (jsAdd (jsAdd 0
          (columnRateSpec up ((d :: ds).map (fun r => r.Amoxicillin))))
          (columnRateSpec up ((d :: ds).map (fun r => r.Ciprofloxacin))))
          (columnRateSpec up ((d :: ds).map (fun r => r.Meropenem))))
          (columnRateSpec up ((d :: ds).map (fun r => r.Vancomycin))))
          (columnRateSpec up ((d :: ds).map (fun r => r.Colistin))) / 5 ≤ ((100 : ℕ) : ℚ) := by
        rw [div_le_iff₀ (by norm_num)]
        have := s5.2
        push_cast at this ⊢
        linarith
      exact ⟨roundDouble_nonneg _ hd0,
        by exact_mod_cast roundDouble_le_nat _ 100 hd0 hd1 (by norm_num)⟩

/-! ### Age box plot -/

theorem renderAgeBoxPlot_eq (data : List Record) :
    renderAgeBoxPlot data =
      if (ageOutcomes data).length = 0 then
        handleEmptyChart "age-box-plot" "Patient Age Distribution by Outcome"
      else if (ageBoxes (ageCleanData data) (ageOutcomes data)).length = 0 then
        handleEmptyChart "age-box-plot" "Patient Age Distribution by Outcome"
      else
        [Effect.newPlot "age-box-plot" (ageBoxes (ageCleanData data) (ageOutcomes data))
          ageBoxLayout] := rfl

theorem mem_ageOutcomes (data : List Record) (v : String) :
    v ∈ ageOutcomes data ↔ ∃ d ∈ ageCleanData data, d.Outcome = v := by
  simp only [ageOutcomes, mem_sort, List.mem_filter, mem_newSet, List.mem_map, bne_iff_ne,
    ne_eq]
  constructor
  · rintro ⟨h, -⟩
    exact h
  · rintro ⟨d, hd, rfl⟩
    refine ⟨⟨d, hd, rfl⟩, ?_⟩
    unfold ageCleanData at hd
    rw [List.mem_filter] at hd
    have h2 := hd.2
    simp only [Bool.and_eq_true, bne_iff_ne, ne_eq] at h2
    exact h2.2

theorem ages_pos_of_mem (data : List Record) (o : String) (ho : o ∈ ageOutcomes data) :
    0 < (((ageCleanData data).filter (fun d => d.Outcome == o)).map (fun d => d.Age)).length := by
  obtain ⟨d, hd, hdo⟩ := (mem_ageOutcomes data o).mp ho
  rw [List.length_map]
  apply List.length_pos_of_mem (a := d)
  rw [List.mem_filter]
  exact ⟨hd, by simp [hdo]⟩

theorem filterMap_eq_map_of_some {α β : Type} (f : α → Option β) (g : α → β) (l : List α)
    (h : ∀ x ∈ l, f x = some (g x)) : l.filterMap f = l.map g := by
  induction l with
  | nil => rfl
  | cons x xs ih =>
    rw [List.filterMap_cons, h x (List.mem_cons_self x xs), List.map_cons,
      ih (fun y hy => h y (List.mem_cons_of_mem x hy))]

theorem ageBoxes_eq_map (data : List Record) :
    ageBoxes (ageCleanData data) (ageOutcomes data) =
      (ageOutcomes data).map (fun o =>
        Trace.box (((ageCleanData data).filter (fun d => d.Outcome == o)).map (fun d => d.Age))
          o (schemeCategory10.getD ((ageOutcomes data).indexOf o % 10) "")) := by
  unfold ageBoxes
  apply filterMap_eq_map_of_some
  intro o ho
  have hpos := ages_pos_of_mem data o ho
  simp only [gt_iff_lt, hpos, if_true]

/-- C20: in `renderAgeBoxPlot` every outcome of the list `outcomes` has at
least one age among the cleaned records, so one box is drawn per outcome and
the placeholder after the loop is never reached: the function emits the
placeholder when `outcomes` is empty and the plot of all the boxes otherwise. -/
theorem ageBoxes_one_per_outcome (data : List Record) :
    (∀ o ∈ ageOutcomes data,
      0 < (((ageCleanData data).filter (fun d => d.Outcome == o)).map
        (fun d => d.Age)).length) ∧
    (ageBoxes (ageCleanData data) (ageOutcomes data)).length = (ageOutcomes data).length ∧
    renderAgeBoxPlot data =
      (if (ageOutcomes data).length = 0 then
        handleEmptyChart "age-box-plot" "Patient Age Distribution by Outcome"
      else
        [Effect.newPlot "age-box-plot" (ageBoxes (ageCleanData data) (ageOutcomes data))
          ageBoxLayout]) := by
  have hlen : (ageBoxes (ageCleanData data) (ageOutcomes data)).length =
      (ageOutcomes data).length := by
    rw [ageBoxes_eq_map, List.length_map]
  refine ⟨fun o ho => ages_pos_of_mem data o ho, hlen, ?_⟩
  rw [renderAgeBoxPlot_eq, hlen]
  by_cases h : (ageOutcomes data).length = 0 <;> simp [h]

theorem ageCleanData_eq (data : List Record) (hne : ∀ d ∈ data, d.Outcome ≠ "") :
    ageCleanData data = data.filter (fun d => d.Age.isSome && d.Outcome != "Unknown") := by
  unfold ageCleanData
  apply List.filter_congr
  intro d hd
  have h := hne d hd
  simp [h]

theorem ageOutcomes_eq_nil_iff (data : List Record) :
    ageOutcomes data = [] ↔ ageCleanData data = [] := by
  constructor
  · intro h
    cases hc : ageCleanData data with
    | nil => rfl
    | cons d ds =>
      have hmem : d.Outcome ∈ ageOutcomes data :=
        (mem_ageOutcomes data d.Outcome).mpr ⟨d, by rw [hc]; exact List.mem_cons_self d ds, rfl⟩
      rw [h] at hmem
      cases hmem
  · intro h
    cases ho : ageOutcomes data with
    | nil => rfl
    | cons o os =>
      have hmem : o ∈ ageOutcomes data := by rw [ho]; exact List.mem_cons_self o os
      obtain ⟨d, hd, -⟩ := (mem_ageOutcomes data o).mp hmem
      rw [h] at hd
      cases hd

/-- C16: for records with non-empty outcomes, `renderAgeBoxPlot` leaves out the
records with absent age or outcome `Unknown`; if none remains it emits the
placeholder, otherwise it draws one box per distinct remaining outcome, in
ascending order, holding the ages of the remaining records of that outcome in
their original order (an outcome without such a record gets no box). -/
theorem renderAgeBoxPlot_boxes (data : List Record) (hne : ∀ d ∈ data, d.Outcome ≠ "") :
    ∃ cats : List String,
      cats.Sorted jsLe ∧ cats.Nodup ∧
      (∀ v, v ∈ cats ↔ ∃ d ∈ data, d.Age ≠ none ∧ d.Outcome ≠ "Unknown" ∧ d.Outcome = v) ∧
      (cats = [] ↔ data.filter (fun d => d.Age.isSome && d.Outcome != "Unknown") = []) ∧
      renderAgeBoxPlot data =
        (if cats = [] then
          handleEmptyChart "age-box-plot" "Patient Age Distribution by Outcome"
        else
          [Effect.newPlot "age-box-plot"
            (cats.map (fun o =>
              Trace.box
                (((data.filter (fun d => d.Age.isSome && d.Outcome != "Unknown")).filter
                  (fun d => d.Outcome == o)).map (fun d => d.Age))
                o (schemeCategory10.getD (cats.indexOf o % 10) "")))
            ageBoxLayout]) := by
  have hclean := ageCleanData_eq data hne
  refine ⟨ageOutcomes data, sort_sorted _, nodup_sort _ ((nodup_newSet _).filter _), ?_, ?_, ?_⟩
  · intro v
    rw [mem_ageOutcomes, hclean]
    constructor
    · rintro ⟨d, hd, hv⟩
      rw [List.mem_filter] at hd
      have h2 := hd.2
      simp only [Bool.and_eq_true, bne_iff_ne, ne_eq, Option.isSome_iff_ne_none] at h2
      exact ⟨d, hd.1, h2.1, h2.2, hv⟩
    · rintro ⟨d, hd, hage, hunk, hv⟩
      refine ⟨d, ?_, hv⟩
      rw [List.mem_filter]
      refine ⟨hd, ?_⟩
      simp only [Bool.and_eq_true, bne_iff_ne, ne_eq, Option.isSome_iff_ne_none]
      exact ⟨hage, hunk⟩
  · rw [ageOutcomes_eq_nil_iff, hclean]
  · rw [renderAgeBoxPlot_eq, ageBoxes_eq_map, List.length_map, ← hclean]
    by_cases h : ageOutcomes data = []
    · simp [h]
    · have hlen : (ageOutcomes data).length ≠ 0 := by
        intro h0
        exact h (List.length_eq_zero.mp h0)
      simp only [hlen, h, if_false]

theorem renderAgeBoxPlot_boxes_witness :
    (∀ d ∈ loadData toUpperCase sampleRows, d.Outcome ≠ "") ∧
    ∃ cats : List String,
      cats.Sorted jsLe ∧ cats.Nodup ∧
      (∀ v, v ∈ cats ↔ ∃ d ∈ loadData toUpperCase sampleRows,
        d.Age ≠ none ∧ d.Outcome ≠ "Unknown" ∧ d.Outcome = v) ∧
      (cats = [] ↔ (loadData toUpperCase sampleRows).filter
        (fun d => d.Age.isSome && d.Outcome != "Unknown") = []) ∧
      renderAgeBoxPlot (loadData toUpperCase sampleRows) =
        (if cats = [] then
          handleEmptyChart "age-box-plot" "Patient Age Distribution by Outcome"
        else
          [Effect.newPlot "age-box-plot"
            (cats.map (fun o =>
              Trace.box
                ((((loadData toUpperCase sampleRows).filter
                    (fun d => d.Age.isSome && d.Outcome != "Unknown")).filter
                  (fun d => d.Outcome == o)).map (fun d => d.Age))
                o (schemeCategory10.getD (cats.indexOf o % 10) "")))
            ageBoxLayout]) :=
  ⟨by decide, renderAgeBoxPlot_boxes (loadData toUpperCase sampleRows) (by decide)⟩

/-! ### Grouping (`d3.group`) -/

theorem lookup_groupInsert {κ α : Type} [DecidableEq κ] (k k' : κ) (v : α)
    (m : List (κ × List α)) :
    ((groupInsert k v m).lookup k').getD [] =
      (m.lookup k').getD [] ++ (if k = k' then [v] else []) := by
  induction m with
  | nil =>
    by_cases h : k = k'
    · subst h
      simp [groupInsert, List.lookup]
    · have h' : (k' == k) = false := by simpa using fun e => h e.symm
      simp [groupInsert, List.lookup, h, h']
  | cons kg rest ih =>
    obtain ⟨k0, g⟩ := kg
    by_cases h0 : k0 = k
    · subst h0
      by_cases h : k0 = k'
      · subst h
        simp [groupInsert, List.lookup]
      · have h' : (k' == k0) = false := by simpa using fun e => h e.symm
        simp [groupInsert, List.lookup, h, h']
    · by_cases h1 : k' = k0
      · subst h1
        have hk : ¬ k = k' := fun e => h0 e.symm
        simp [groupInsert, List.lookup, h0, hk]
      · have h' : (k' == k0) = false := by simpa using h1
        simp only [groupInsert, h0, if_false, List.lookup, h']
        exact ih

theorem lookup_group_foldl {κ α : Type} [DecidableEq κ] (key : α → κ) (k : κ)
    (values : List α) (acc : List (κ × List α)) :
    ((values.foldl (fun m v => groupInsert (key v) v m) acc).lookup k).getD [] =
      (acc.lookup k).getD [] ++ values.filter (fun v => decide (key v = k)) := by
  induction values generalizing acc with
  | nil => simp
  | cons v vs ih =>
    rw [List.foldl_cons, ih, lookup_groupInsert]
    by_cases h : key v = k
    · simp [h, List.filter_cons]
    · simp [h, List.filter_cons]

theorem lookup_group {κ α : Type} [DecidableEq κ] (key : α → κ) (k : κ) (values : List α) :
    ((group values key).lookup k).getD [] = values.filter (fun v => decide (key v = k)) := by
  unfold group
  rw [lookup_group_foldl]
  simp [List.lookup]

theorem lookup_map_snd {κ β γ : Type} [DecidableEq κ] (f : β → γ) (k : κ)
    (m : List (κ × β)) :
    (m.map (fun kg => (kg.1, f kg.2))).lookup k = (m.lookup k).map f := by
  induction m with
  | nil => rfl
  | cons kg rest ih =>
    obtain ⟨k0, b⟩ := kg
    by_cases h : k = k0
    · subst h
      simp [List.lookup]
    · have h' : (k == k0) = false := by simpa using h
      simp only [List.map_cons, List.lookup, h']
      exact ih

theorem groupCount_eq (chartData : List Record) (o : String) (flag : Bool) :
    groupCount (group2 chartData (fun d => d.Outcome) (fun d => d.hasAnyResistance)) o flag =
      (chartData.filter (fun d => decide (d.Outcome = o) &&
        decide (d.hasAnyResistance = flag))).length := by
  unfold groupCount group2
  simp only
  rw [lookup_map_snd (fun g : List Record => group g (fun d : Record => d.hasAnyResistance)) o]
  have hcontent := lookup_group (fun d : Record => d.Outcome) o chartData
  cases hl : (group chartData (fun d => d.Outcome)).lookup o with
  | none =>
    rw [hl] at hcontent
    simp only [Option.getD_none] at hcontent
    simp only [Option.map_none', Option.getD_none, List.lookup, List.length_nil]
    have hsub : chartData.filter (fun d => decide (d.Outcome = o) &&
        decide (d.hasAnyResistance = flag)) = [] := by
      rw [List.filter_eq_nil_iff]
      intro d hd hp
      simp only [Bool.and_eq_true, decide_eq_true_eq] at hp
      have hmem : d ∈ chartData.filter (fun v => decide (v.Outcome = o)) := by
        rw [List.mem_filter]
        exact ⟨hd, by simpa using hp.1⟩
      rw [← hcontent] at hmem
      cases hmem
    rw [hsub]
    rfl
  | some g =>
    rw [hl] at hcontent
    simp only [Option.getD_some] at hcontent
    simp only [Option.map_some', Option.getD_some]
    rw [lookup_group, hcontent, List.filter_filter]
    congr 1
    apply List.filter_congr
    intro d _
    exact Bool.and_comm _ _

/-! ### Outcome bar chart -/

theorem renderOutcomeBarChart_eq (data : List Record) :
    renderOutcomeBarChart data =
      if (barOutcomes data).length = 0 then
        handleEmptyChart "outcome-stacked-bar-chart" "Resistance Status by Patient Outcome"
      else
        [Effect.newPlot "outcome-stacked-bar-chart"
          [Trace.bar (barOutcomes data)
            ((barOutcomes data).map (fun o =>
              groupCount (group2 (barChartData data) (fun d => d.Outcome)
                (fun d => d.hasAnyResistance)) o true))
            "Resistant / Intermediate" "#d93025",
           Trace.bar (barOutcomes data)
            ((barOutcomes data).map (fun o =>
              groupCount (group2 (barChartData data) (fun d => d.Outcome)
                (fun d => d.hasAnyResistance)) o false))
            "Fully Susceptible" "#34a853"]
          outcomeBarLayout] := rfl

theorem mem_barOutcomes (data : List Record) (v : String) :
    v ∈ barOutcomes data ↔ (∃ d ∈ data, d.Outcome = v) ∧ v ≠ "Unknown" ∧ v ≠ "" := by
  simp only [barOutcomes, barChartData, mem_sort, List.mem_filter, mem_newSet, List.mem_map,
    bne_iff_ne, ne_eq, Bool.and_eq_true]
  constructor
  · rintro ⟨⟨d, ⟨hd, h1, -⟩, rfl⟩, h3⟩
    exact ⟨⟨d, hd, rfl⟩, h1, h3⟩
  · rintro ⟨⟨d, hd, rfl⟩, h1, h2⟩
    exact ⟨⟨d, ⟨hd, h1, h2⟩, rfl⟩, h2⟩

theorem barCount_eq (data : List Record) (o : String) (flag : Bool)
    (ho : o ∈ barOutcomes data) :
    groupCount (group2 (barChartData data) (fun d => d.Outcome)
        (fun d => d.hasAnyResistance)) o flag =
      (data.filter (fun d => d.Outcome == o && d.hasAnyResistance == flag)).length := by
  obtain ⟨-, h1, h2⟩ := (mem_barOutcomes data o).mp ho
  rw [groupCount_eq, barChartData, List.filter_filter]
  congr 1
  apply List.filter_congr
  intro d _
  have hb1 : (o != "Unknown") = true := bne_iff_ne.mpr h1
  have hb2 : (o != "") = true := bne_iff_ne.mpr h2
  by_cases hd : d.Outcome = o
  · rw [hd, hb1, hb2]
    cases d.hasAnyResistance <;> cases flag <;> simp
  · simp [hd]

theorem count_split (data : List Record) (o : String) :
    (data.filter (fun d => d.Outcome == o && d.hasAnyResistance == true)).length +
      (data.filter (fun d => d.Outcome == o && d.hasAnyResistance == false)).length =
    (data.filter (fun d => d.Outcome == o)).length := by
  induction data with
  | nil => rfl
  | cons d ds ih =>
    by_cases hd : d.Outcome = o
    · cases hr : d.hasAnyResistance <;> simp [List.filter_cons, hd, hr] at ih ⊢ <;> omega
    · simp [List.filter_cons, hd] at ih ⊢
      exact ih

/-- C14: for records with non-empty outcomes, one of them other than `Unknown`,
the categories of `renderOutcomeBarChart` are the distinct outcomes of the
filtered records other than `Unknown`, duplicate-free and ascending; the first
series counts, per category, the records with `hasAnyResistance` true, the
second those with it false, and the two counts add up to the number of
records of that outcome. -/
theorem renderOutcomeBarChart_series (data : List Record)
    (hne : ∀ d ∈ data, d.Outcome ≠ "") (hex : ∃ d ∈ data, d.Outcome ≠ "Unknown") :
    ∃ cats : List String,
      cats.Sorted jsLe ∧ cats.Nodup ∧
      (∀ v, v ∈ cats ↔ (∃ d ∈ data, d.Outcome = v) ∧ v ≠ "Unknown") ∧
      renderOutcomeBarChart data =
        [Effect.newPlot "outcome-stacked-bar-chart"
          [Trace.bar cats
            (cats.map (fun o =>
              (data.filter (fun d => d.Outcome == o && d.hasAnyResistance == true)).length))
            "Resistant / Intermediate" "#d93025",
           Trace.bar cats
            (cats.map (fun o =>
              (data.filter (fun d => d.Outcome == o && d.hasAnyResistance == false)).length))
            "Fully Susceptible" "#34a853"]
          outcomeBarLayout] ∧
      ∀ o : String,
        (data.filter (fun d => d.Outcome == o && d.hasAnyResistance == true)).length +
          (data.filter (fun d => d.Outcome == o && d.hasAnyResistance == false)).length =
        (data.filter (fun d => d.Outcome == o)).length := by
  refine ⟨barOutcomes data, sort_sorted _, nodup_sort _ ((nodup_newSet _).filter _), ?_, ?_,
    count_split data⟩
  · intro v
    rw [mem_barOutcomes]
    constructor
    · rintro ⟨h, h1, -⟩
      exact ⟨h, h1⟩
    · rintro ⟨⟨d, hd, rfl⟩, h1⟩
      exact ⟨⟨d, hd, rfl⟩, h1, hne d hd⟩
  · obtain ⟨d, hd, hunk⟩ := hex
    have hmem : d.Outcome ∈ barOutcomes data :=
      (mem_barOutcomes data d.Outcome).mpr ⟨⟨d, hd, rfl⟩, hunk, hne d hd⟩
    have hlen : (barOutcomes data).length ≠ 0 := by
      intro h0
      rw [List.length_eq_zero.mp h0] at hmem
      cases hmem
    rw [renderOutcomeBarChart_eq]
    simp only [hlen, if_false]
    rw [List.map_congr_left (fun o ho => barCount_eq data o true ho),
      List.map_congr_left (fun o ho => barCount_eq data o false ho)]

theorem renderOutcomeBarChart_series_witness :
    (∀ d ∈ loadData toUpperCase sampleRows, d.Outcome ≠ "") ∧
    (∃ d ∈ loadData toUpperCase sampleRows, d.Outcome ≠ "Unknown") ∧
    ∀ o : String,
      ((loadData toUpperCase sampleRows).filter
          (fun d => d.Outcome == o && d.hasAnyResistance == true)).length +
        ((loadData toUpperCase sampleRows).filter
          (fun d => d.Outcome == o && d.hasAnyResistance == false)).length =
      ((loadData toUpperCase sampleRows).filter (fun d => d.Outcome == o)).length := by
  obtain ⟨cats, -, -, -, -, hsum⟩ :=
    renderOutcomeBarChart_series (loadData toUpperCase sampleRows) (by decide) (by decide)
  exact ⟨by decide, by decide, hsum⟩

/-! ### Specimen pie -/

theorem groupInsert_keys {κ α : Type} [DecidableEq κ] (k : κ) (v : α)
    (m : List (κ × List α)) :
    (groupInsert k v m).map Prod.fst =
      if k ∈ m.map Prod.fst then m.map Prod.fst else m.map Prod.fst ++ [k] := by
  induction m with
  | nil => simp [groupInsert]
  | cons kg rest ih =>
    obtain ⟨k0, g⟩ := kg
    by_cases h0 : k0 = k
    · subst h0
      simp [groupInsert]
    · have hk : ¬ k = k0 := fun e => h0 e.symm
      simp only [groupInsert, h0, if_false, List.map_cons, ih, List.mem_cons, hk, false_or]
      by_cases hm : k ∈ rest.map Prod.fst
      · simp only [hm, if_true]
      · simp only [hm, if_false, List.cons_append]

theorem group_keys_foldl {κ α : Type} [DecidableEq κ] (key : α → κ) (values : List α)
    (acc : List (κ × List α)) :
    (values.foldl (fun m v => groupInsert (key v) v m) acc).map Prod.fst =
      (values.map key).foldl (fun seen x => if x ∈ seen then seen else seen ++ [x])
        (acc.map Prod.fst) := by
  induction values generalizing acc with
  | nil => rfl
  | cons v vs ih =>
    rw [List.foldl_cons, ih, groupInsert_keys, List.map_cons, List.foldl_cons]

theorem group_keys {κ α : Type} [DecidableEq κ] (key : α → κ) (values : List α) :
    (group values key).map Prod.fst = newSet (values.map key) := by
  unfold group newSet
  rw [group_keys_foldl]
  rfl

theorem lookup_of_mem {κ β : Type} [DecidableEq κ] (m : List (κ × β))
    (hnd : (m.map Prod.fst).Nodup) (k : κ) (b : β) (hmem : (k, b) ∈ m) :
    m.lookup k = some b := by
  induction m with
  | nil => cases hmem
  | cons kg rest ih =>
    obtain ⟨k0, b0⟩ := kg
    rw [List.map_cons, List.nodup_cons] at hnd
    rcases List.mem_cons.mp hmem with h | h
    · cases h
      simp [List.lookup]
    · have hne : ¬ k = k0 := by
        intro e
        subst e
        exact hnd.1 (List.mem_map.mpr ⟨(k, b), h, rfl⟩)
      have h' : (k == k0) = false := by simpa using hne
      simp only [List.lookup, h']
      exact ih hnd.2 h

theorem group_entry {κ α : Type} [DecidableEq κ] (key : α → κ) (values : List α)
    (kg : κ × List α) (hmem : kg ∈ group values key) :
    kg.2 = values.filter (fun v => decide (key v = kg.1)) := by
  have hnd : ((group values key).map Prod.fst).Nodup := by
    rw [group_keys]
    exact nodup_newSet _
  have hl := lookup_of_mem (group values key) hnd kg.1 kg.2 hmem
  have hc := lookup_group key kg.1 values
  rw [hl] at hc
  exact hc

theorem group_sizes {κ α : Type} [DecidableEq κ] (key : α → κ) (values : List α) :
    (group values key).map (fun kg => kg.2.length) =
      (newSet (values.map key)).map
        (fun k => (values.filter (fun v => decide (key v = k))).length) := by
  rw [← group_keys, List.map_map]
  apply List.map_congr_left
  intro kg hkg
  simp only [Function.comp_apply]
  rw [group_entry key values kg hkg]

theorem newSet_perm_dedup {α : Type} [DecidableEq α] (xs : List α) :
    (newSet xs).Perm xs.dedup := by
  rw [List.perm_ext_iff_of_nodup (nodup_newSet xs) (List.nodup_dedup xs)]
  intro a
  rw [mem_newSet, List.mem_dedup]

theorem sum_group_sizes {κ α : Type} [DecidableEq κ] (key : α → κ) (values : List α) :
    ((newSet (values.map key)).map
      (fun k => (values.filter (fun v => decide (key v = k))).length)).sum = values.length := by
  have hcount : ∀ k : κ, (values.filter (fun v => decide (key v = k))).length =
      (values.map key).count k := by
    intro k
    rw [List.count_eq_countP, List.countP_map, List.countP_eq_length_filter]
    congr 1
  simp only [hcount]
  rw [((newSet_perm_dedup (values.map key)).map _).sum_eq,
    List.sum_map_count_dedup_eq_length, List.length_map]

theorem renderSpecimenPieChart_eq (data : List Record) (c : Option String) :
    renderSpecimenPieChart data c =
      if ((group (pieChartData data) (fun d => d.Specimen_Type)).map Prod.fst).length = 0 then
        handleEmptyChart "specimen-pie-chart" "Isolate Distribution by Specimen Type"
      else
        [Effect.newPlot "specimen-pie-chart"
          [Trace.pie ((group (pieChartData data) (fun d => d.Specimen_Type)).map Prod.fst)
            ((group (pieChartData data) (fun d => d.Specimen_Type)).map
              (fun kg => kg.2.length))
            (((group (pieChartData data) (fun d => d.Specimen_Type)).map Prod.fst).enum.map
              (fun il => sliceColor c il.1 il.2))]
          pieLayout,
         Effect.onClick "specimen-pie-chart"] := rfl

theorem pieChartData_eq (data : List Record) (hne : ∀ d ∈ data, d.Specimen_Type ≠ "") :
    pieChartData data = data.filter (fun d => d.Specimen_Type != "Unknown") := by
  unfold pieChartData
  apply List.filter_congr
  intro d hd
  have h := hne d hd
  simp [h]

theorem pie_slice_count (data : List Record) (hne : ∀ d ∈ data, d.Specimen_Type ≠ "")
    (l : String) (hl : l ≠ "Unknown") :
    ((pieChartData data).filter (fun d => decide (d.Specimen_Type = l))).length =
      (data.filter (fun d => d.Specimen_Type == l)).length := by
  rw [pieChartData_eq data hne, List.filter_filter]
  congr 1
  apply List.filter_congr
  intro d _
  have hb : (l != "Unknown") = true := bne_iff_ne.mpr hl
  by_cases hd : d.Specimen_Type = l
  · rw [hd, hb]
    simp
  · simp [hd]

theorem newSet_foldl_firstOccurrences {α : Type} [DecidableEq α] (xs acc : List α) :
    xs.foldl (fun seen x => if x ∈ seen then seen else seen ++ [x]) acc =
      acc ++ (firstOccurrences xs).filter (fun y => decide (y ∉ acc)) := by
  induction xs generalizing acc with
  | nil => simp [firstOccurrences]
  | cons x xs ih =>
    rw [List.foldl_cons, ih]
    by_cases hx : x ∈ acc
    · simp only [hx, if_true, firstOccurrences, List.filter_cons, not_true_eq_false,
        decide_False, Bool.false_eq_true, if_false, List.filter_filter]
      congr 1
      apply List.filter_congr
      intro y _
      by_cases hy : y ∈ acc
      · simp [hy]
      · have hne : y ≠ x := fun e => hy (e ▸ hx)
        simp [hy, hne]
    · simp only [hx, if_false, firstOccurrences, List.filter_cons, not_false_eq_true,
        decide_True, if_true, List.filter_filter, List.append_assoc, List.singleton_append]
      congr 2
      apply List.filter_congr
      intro y _
      by_cases hy : y ∈ acc
      · simp [hy]
      · by_cases hne : y = x
        · simp [hy, hne]
        · simp [hy, hne]

theorem newSet_eq_firstOccurrences {α : Type} [DecidableEq α] (xs : List α) :
    newSet xs = firstOccurrences xs := by
  unfold newSet
  rw [newSet_foldl_firstOccurrences]
  simp

/-- C15: for records with non-empty specimen types, `renderSpecimenPieChart`
leaves out the records of type `Unknown` and draws one slice per distinct
remaining type, the labels pairwise distinct and in order of first occurrence,
each value the number of filtered records of that type; the values add up to
the number of filtered records whose type is not `Unknown` (with no such
record there is no slice and the placeholder is shown). -/
theorem renderSpecimenPieChart_slices (data : List Record) (c : Option String)
    (hne : ∀ d ∈ data, d.Specimen_Type ≠ "") :
    ∃ labels : List String,
      labels = firstOccurrences ((data.filter (fun d => d.Specimen_Type != "Unknown")).map
        (fun d => d.Specimen_Type)) ∧
      labels.Nodup ∧
      (∀ v, v ∈ labels ↔ (∃ d ∈ data, d.Specimen_Type = v) ∧ v ≠ "Unknown") ∧
      (labels.map (fun l => (data.filter (fun d => d.Specimen_Type == l)).length)).sum =
        (data.filter (fun d => d.Specimen_Type != "Unknown")).length ∧
      renderSpecimenPieChart data c =
        (if labels = [] then
          handleEmptyChart "specimen-pie-chart" "Isolate Distribution by Specimen Type"
        else
          [Effect.newPlot "specimen-pie-chart"
            [Trace.pie labels
              (labels.map (fun l => (data.filter (fun d => d.Specimen_Type == l)).length))
              (labels.enum.map (fun il => sliceColor c il.1 il.2))]
            pieLayout,
           Effect.onClick "specimen-pie-chart"]) := by
  have hmem : ∀ v, v ∈ newSet ((data.filter (fun d => d.Specimen_Type != "Unknown")).map
      (fun d => d.Specimen_Type)) ↔ (∃ d ∈ data, d.Specimen_Type = v) ∧ v ≠ "Unknown" := by
    intro v
    simp only [mem_newSet, List.mem_map, List.mem_filter, bne_iff_ne, ne_eq]
    constructor
    · rintro ⟨d, ⟨hd, h1⟩, rfl⟩
      exact ⟨⟨d, hd, rfl⟩, h1⟩
    · rintro ⟨⟨d, hd, rfl⟩, h1⟩
      exact ⟨d, ⟨hd, h1⟩, rfl⟩
  have hvalues : (newSet ((data.filter (fun d => d.Specimen_Type != "Unknown")).map
        (fun d => d.Specimen_Type))).map
        (fun k => ((pieChartData data).filter
          (fun v => decide (v.Specimen_Type = k))).length) =
      (newSet ((data.filter (fun d => d.Specimen_Type != "Unknown")).map
        (fun d => d.Specimen_Type))).map
        (fun l => (data.filter (fun d => d.Specimen_Type == l)).length) := by
    apply List.map_congr_left
    intro l hl
    exact pie_slice_count data hne l ((hmem l).mp hl).2
  refine ⟨_, newSet_eq_firstOccurrences _, nodup_newSet _, hmem, ?_, ?_⟩
  · rw [← hvalues, pieChartData_eq data hne]
    exact sum_group_sizes (fun d : Record => d.Specimen_Type) _
  · rw [renderSpecimenPieChart_eq, group_keys, group_sizes, pieChartData_eq data hne]
    rw [pieChartData_eq data hne] at hvalues
    rw [hvalues]
    by_cases h : newSet ((data.filter (fun d => d.Specimen_Type != "Unknown")).map
        (fun d => d.Specimen_Type)) = []
    · simp [h]
    · have hlen : (newSet ((data.filter (fun d => d.Specimen_Type != "Unknown")).map
          (fun d => d.Specimen_Type))).length ≠ 0 := by
        intro h0
        exact h (List.length_eq_zero.mp h0)
      simp only [hlen, h, if_false]

theorem renderSpecimenPieChart_slices_witness :
    (∀ d ∈ loadData toUpperCase sampleRows, d.Specimen_Type ≠ "") ∧
    ∃ labels : List String,
      labels = firstOccurrences (((loadData toUpperCase sampleRows).filter
        (fun d => d.Specimen_Type != "Unknown")).map (fun d => d.Specimen_Type)) ∧
      labels.Nodup ∧
      (labels.map (fun l => ((loadData toUpperCase sampleRows).filter
          (fun d => d.Specimen_Type == l)).length)).sum =
        ((loadData toUpperCase sampleRows).filter
          (fun d => d.Specimen_Type != "Unknown")).length := by
  obtain ⟨labels, h1, h2, -, h4, -⟩ :=
    renderSpecimenPieChart_slices (loadData toUpperCase sampleRows) none (by decide)
  exact ⟨by decide, labels, h1, h2, h4⟩

/-! ### The pie under a cross-filter -/

theorem group_foldl_const {κ α : Type} [DecidableEq κ] (key : α → κ) (k : κ)
    (values g : List α) (h : ∀ v ∈ values, key v = k) :
    values.foldl (fun m v => groupInsert (key v) v m) [(k, g)] = [(k, g ++ values)] := by
  induction values generalizing g with
  | nil => simp
  | cons v vs ih =>
    have hv : key v = k := h v (List.mem_cons_self v vs)
    rw [List.foldl_cons, hv]
    simp only [groupInsert, if_true]
    rw [ih (g ++ [v]) (fun w hw => h w (List.mem_cons_of_mem v hw))]
    simp

theorem group_const {κ α : Type} [DecidableEq κ] (key : α → κ) (k : κ) (v : α)
    (vs : List α) (h : ∀ w ∈ v :: vs, key w = k) :
    group (v :: vs) key = [(k, v :: vs)] := by
  have hv : key v = k := h v (List.mem_cons_self v vs)
  unfold group
  rw [List.foldl_cons, hv]
  simp only [groupInsert]
  rw [group_foldl_const key k vs [v] (fun w hw => h w (List.mem_cons_of_mem v hw))]
  rfl

theorem applyFilters_cross_specimen (up : String → String) (st : State) (c : String)
    (hc : st.crossFilterSpecimen = some c) (hne : c ≠ "") :
    ∀ d ∈ (applyFilters up st).filteredData, d.Specimen_Type = c := by
  intro d hd
  rw [applyFilters_filteredData_eq, List.mem_filter, matchesFilters_iff] at hd
  have hfinal : finalSpecimenFilter st.crossFilterSpecimen st.specimenFilter.value = c := by
    rw [hc]
    simp [finalSpecimenFilter, orDefault, hne]
  rw [hfinal] at hd
  rcases hd.2.1 with h | h
  · exact absurd h hne
  · exact h

theorem sliceColor_cross (c : String) (hne : c ≠ "") (index : Nat) :
    sliceColor (some c) index c = "#1a73e8" := by
  simp [sliceColor, truthy, hne]

theorem pie_of_cross (data : List Record) (c : String) (hne : c ≠ "")
    (hall : ∀ d ∈ data, d.Specimen_Type = c) :
    renderSpecimenPieChart data (some c) =
        handleEmptyChart "specimen-pie-chart" "Isolate Distribution by Specimen Type" ∨
      renderSpecimenPieChart data (some c) =
        [Effect.newPlot "specimen-pie-chart" [Trace.pie [c] [data.length] ["#1a73e8"]]
          pieLayout,
         Effect.onClick "specimen-pie-chart"] := by
  by_cases hunk : c = "Unknown"
  · left
    have hempty : pieChartData data = [] := by
      unfold pieChartData
      rw [List.filter_eq_nil_iff]
      intro d hd
      simp [hall d hd, hunk]
    rw [renderSpecimenPieChart_eq, hempty]
    rfl
  · have hb1 : (c != "Unknown") = true := bne_iff_ne.mpr hunk
    have hb2 : (c != "") = true := bne_iff_ne.mpr hne
    have hsame : pieChartData data = data := by
      unfold pieChartData
      apply List.filter_eq_self.mpr
      intro d hd
      rw [hall d hd, hb1, hb2]
      rfl
    cases data with
    | nil =>
      left
      rfl
    | cons d ds =>
      right
      rw [renderSpecimenPieChart_eq, hsame,
        group_const (fun d : Record => d.Specimen_Type) c d ds hall]
      simp only [List.map_cons, List.map_nil, List.length_cons, List.length_nil,
        Nat.succ_ne_zero, if_false, List.enum_cons, List.enum_nil, List.enumFrom_nil,
        sliceColor_cross c hne]

/-- C18: in a state left by `applyFilters` with a cross-filter set, every
filtered record has the cross-filter as its `Specimen_Type`; the specimen pie
of that state is the placeholder or one slice, labelled with the cross-filter
and coloured `#1a73e8`, and no slice of it has the dimmed colour `#e0e0e0`. -/
theorem pie_under_crossFilter (up : String → String) (st : State) (c : String)
    (hc : st.crossFilterSpecimen = some c) (hne : c ≠ "") :
    (∀ d ∈ (applyFilters up st).filteredData, d.Specimen_Type = c) ∧
    (renderSpecimenPieChart (applyFilters up st).filteredData
        (applyFilters up st).crossFilterSpecimen =
        handleEmptyChart "specimen-pie-chart" "Isolate Distribution by Specimen Type" ∨
      renderSpecimenPieChart (applyFilters up st).filteredData
        (applyFilters up st).crossFilterSpecimen =
        [Effect.newPlot "specimen-pie-chart"
          [Trace.pie [c] [(applyFilters up st).filteredData.length] ["#1a73e8"]] pieLayout,
         Effect.onClick "specimen-pie-chart"]) ∧
    (∀ chartId labels values colors layout,
      Effect.newPlot chartId [Trace.pie labels values colors] layout ∈
        renderSpecimenPieChart (applyFilters up st).filteredData
          (applyFilters up st).crossFilterSpecimen →
      labels.length ≤ 1 ∧ (∀ l ∈ labels, l = c) ∧ "#e0e0e0" ∉ colors) := by
  have hall := applyFilters_cross_specimen up st c hc hne
  have hcross : (applyFilters up st).crossFilterSpecimen = some c := hc
  have hpie := pie_of_cross (applyFilters up st).filteredData c hne hall
  rw [hcross]
  refine ⟨hall, hpie, ?_⟩
  intro chartId labels values colors layout hmem
  rcases hpie with h | h
  · rw [h] at hmem
    simp [handleEmptyChart] at hmem
  · rw [h] at hmem
    simp only [List.mem_cons, Effect.newPlot.injEq, List.cons.injEq, Trace.pie.injEq,
      and_true, List.mem_singleton, reduceCtorEq, or_false, List.not_mem_nil] at hmem
    obtain ⟨-, ⟨hl, -, hcol⟩, -⟩ := hmem
    subst hl hcol
    simp

theorem pie_under_crossFilter_witness :
    crossFilteredState.crossFilterSpecimen = some "Blood" ∧
    ∀ d ∈ (applyFilters toUpperCase crossFilteredState).filteredData,
      d.Specimen_Type = "Blood" :=
  ⟨by decide,
    (pie_under_crossFilter toUpperCase crossFilteredState "Blood" (by decide) (by decide)).1⟩

/-! ### Reachable states and the specimen dropdown -/

theorem populateSelect_any (values : List String) (v : String) :
    (populateSelect values).options.any (fun o => o.value == v) = true ↔
      v = "" ∨ v ∈ values := by
  simp only [populateSelect, List.any_cons, Bool.or_eq_true, beq_iff_eq, List.any_eq_true,
    List.mem_map]
  constructor
  · rintro (h | ⟨x, ⟨w, hw, rfl⟩, hx⟩)
    · exact Or.inl h.symm
    · right
      simp only at hx
      rw [← hx]
      exact hw
  · rintro (h | h)
    · exact Or.inl h.symm
    · exact Or.inr ⟨_, ⟨v, h, rfl⟩, rfl⟩

theorem mem_populateSelect_options (values : List String) (o : SelectOption)
    (h : o ∈ (populateSelect values).options) : o.value = "" ∨ o.value ∈ values := by
  simp only [populateSelect, List.mem_cons, List.mem_map] at h
  rcases h with h | ⟨v, hv, h⟩
  · left
    rw [h]
  · right
    rw [← h]
    exact hv

theorem setValue_value_consistent (sel : Select) (values : List String) (v : String)
    (hopt : sel.options = (populateSelect values).options) :
    (sel.setValue v).value = "" ∨ (sel.setValue v).value ∈ values := by
  unfold Select.setValue
  simp only
  by_cases h : sel.options.any (fun o => o.value == v) = true
  · simp only [h, if_true]
    rw [hopt] at h
    exact (populateSelect_any values v).mp h
  · simp only [h]
    left
    trivial

theorem applyFilters_consistent (up : String → String) (st : State) (h : Consistent st) :
    Consistent (applyFilters up st) := by
  obtain ⟨h1, -, h3, -⟩ := h
  refine ⟨h1, ?_, h3, ?_⟩
  · exact setValue_value_consistent st.specimenFilter (specimenTypes st.fullData) _ h1
  · intro d hd
    rw [applyFilters_filteredData_eq, List.mem_filter] at hd
    exact hd.1

theorem pieLabels_mem_specimenTypes (st : State) (h : Consistent st) (label : String)
    (hl : label ∈ pieLabels st) : label ∈ specimenTypes st.fullData := by
  unfold pieLabels at hl
  rw [group_keys, mem_newSet, List.mem_map] at hl
  obtain ⟨d, hd, rfl⟩ := hl
  unfold pieChartData at hd
  rw [List.mem_filter] at hd
  have h2 := hd.2
  simp only [Bool.and_eq_true, bne_iff_ne, ne_eq] at h2
  rw [mem_specimenTypes]
  exact ⟨⟨d, h.2.2.2 d hd.1, rfl⟩, h2.2, h2.1⟩

theorem reachable_consistent (up : String → String) (data : List RawRow) (st : State)
    (h : Reachable up data st) : Consistent st := by
  induction h with
  | loaded =>
    refine ⟨rfl, Or.inl rfl, ?_, ?_⟩
    · intro c hc
      cases hc
    · intro d hd
      exact hd
  | pickSpecimen st o _ ho ih =>
    obtain ⟨h1, -, h3, h4⟩ := ih
    refine ⟨h1, ?_, h3, h4⟩
    rw [h1] at ho
    exact mem_populateSelect_options _ o ho
  | pickGender st o _ _ ih => exact ih
  | pickOutcome st o _ _ ih => exact ih
  | apply st _ ih => exact applyFilters_consistent up st ih
  | reset st _ ih =>
    obtain ⟨h1, -, -, h4⟩ := ih
    apply applyFilters_consistent
    refine ⟨h1, ?_, ?_, h4⟩
    · exact setValue_value_consistent st.specimenFilter (specimenTypes st.fullData) _ h1
    · intro c hc
      cases hc
  | click st label _ hl ih =>
    have hlabel := pieLabels_mem_specimenTypes st ih label hl
    obtain ⟨h1, -, h3, h4⟩ := ih
    apply applyFilters_consistent
    refine ⟨h1, ?_, ?_, h4⟩
    · exact setValue_value_consistent st.specimenFilter (specimenTypes st.fullData) _ h1
    · intro c hc
      simp only at hc
      split at hc
      · cases hc
      · cases hc
        exact hlabel

theorem mem_specimenTypes_ne_empty (fullData : List Record) (v : String)
    (h : v ∈ specimenTypes fullData) : v ≠ "" :=
  ((mem_specimenTypes fullData v).mp h).2.1

theorem applyFilters_value_of_consistent (up : String → String) (st : State)
    (h : Consistent st) :
    (applyFilters up st).specimenFilter.value = effectiveSpecimenFilter st := by
  obtain ⟨h1, h2, h3, -⟩ := h
  rw [applyFilters_specimenFilter]
  unfold effectiveSpecimenFilter Select.setValue
  simp only
  have hany : st.specimenFilter.options.any (fun o => o.value ==
      finalSpecimenFilter st.crossFilterSpecimen st.specimenFilter.value) = true := by
    rw [h1, populateSelect_any]
    unfold finalSpecimenFilter
    rw [orDefault_eq]
    cases hc : st.crossFilterSpecimen with
    | none => exact h2
    | some c =>
      have hmem := h3 c hc
      have hne := mem_specimenTypes_ne_empty _ _ hmem
      simp only [hne, if_false]
      exact Or.inr hmem
  simp only [hany, if_true]

/-- C12 (as stated, refuted): in a state whose cross-filter `Plasma` is none
of the options of the specimen dropdown, a run of `applyFilters` computes the
filtered set with the effective specimen filter `Plasma` and leaves the
dropdown reporting the empty value. -/
theorem applyFilters_stale_dropdown :
    effectiveSpecimenFilter staleCrossState = "Plasma" ∧
    (applyFilters toUpperCase staleCrossState).filteredData =
      staleCrossState.fullData.filter (matchesFilters "Plasma" "" "") ∧
    (applyFilters toUpperCase staleCrossState).specimenFilter.value = "" ∧
    (applyFilters toUpperCase staleCrossState).specimenFilter.value ≠
      effectiveSpecimenFilter staleCrossState := by
  refine ⟨by decide, rfl, by decide, by decide⟩

/-- C12 (amended): in every state the page reaches from the load callback by
dropdown picks, `applyFilters`, `resetFilters` and clicks on a slice of the
displayed pie, after a run of `applyFilters` the specimen dropdown reports the
effective specimen filter the filtered set was computed with (the cross-filter
if one is set, the dropdown's own value otherwise); and while a cross-filter
is set the filtered set is the one selected by the cross-filter, the gender
and the outcome, whatever the specimen dropdown held. -/
theorem applyFilters_syncs_dropdown (up : String → String) (data : List RawRow) (st : State)
    (h : Reachable up data st) :
    (applyFilters up st).specimenFilter.value = effectiveSpecimenFilter st ∧
    (effectiveSpecimenFilter st =
      match st.crossFilterSpecimen with
      | some c => c
      | none => st.specimenFilter.value) ∧
    (applyFilters up st).filteredData =
      st.fullData.filter (matchesFilters (effectiveSpecimenFilter st)
        st.genderFilter.value st.outcomeFilter.value) ∧
    (∀ c, st.crossFilterSpecimen = some c → ∀ sel : Select,
      (applyFilters up { st with specimenFilter := sel }).filteredData =
        st.fullData.filter (matchesFilters c st.genderFilter.value st.outcomeFilter.value) ∧
      (applyFilters up { st with specimenFilter := sel }).filteredData =
        (applyFilters up st).filteredData) := by
  have hcons := reachable_consistent up data st h
  have hcross : ∀ c, st.crossFilterSpecimen = some c → ∀ v : String,
      finalSpecimenFilter st.crossFilterSpecimen v = c := by
    intro c hc v
    have hne := mem_specimenTypes_ne_empty _ _ (hcons.2.2.1 c hc)
    rw [hc]
    simp [finalSpecimenFilter, orDefault, hne]
  refine ⟨applyFilters_value_of_consistent up st hcons, ?_, rfl, ?_⟩
  · cases hc : st.crossFilterSpecimen with
    | none => simp [effectiveSpecimenFilter, finalSpecimenFilter, orDefault, hc]
    | some c =>
      simp only
      unfold effectiveSpecimenFilter
      exact hcross c hc _
  · intro c hc sel
    have h1 : (applyFilters up { st with specimenFilter := sel }).filteredData =
        st.fullData.filter (matchesFilters c st.genderFilter.value st.outcomeFilter.value) := by
      rw [applyFilters_filteredData_eq]
      show st.fullData.filter (matchesFilters
        (finalSpecimenFilter st.crossFilterSpecimen sel.value) _ _) = _
      rw [hcross c hc]
    refine ⟨h1, ?_⟩
    rw [h1, applyFilters_filteredData_eq, hcross c hc]

theorem applyFilters_syncs_dropdown_witness :
    Reachable toUpperCase sampleRows crossFilteredState ∧
    (applyFilters toUpperCase crossFilteredState).specimenFilter.value =
      effectiveSpecimenFilter crossFilteredState ∧
    effectiveSpecimenFilter crossFilteredState = "Blood" := by
  have hreach : Reachable toUpperCase sampleRows crossFilteredState :=
    Reachable.click _ "Blood" Reachable.loaded (by decide)
  exact ⟨hreach, (applyFilters_syncs_dropdown toUpperCase sampleRows crossFilteredState hreach).1,
    by decide⟩

end Dashboard
